import Mathlib

/-!
Shallow embedding of the resume-analyser backend (src/backend/main.py) and a
verification of the frozen claims about its ranking pipeline and resource
management.

Modelling conventions:
- Floating-point numbers are modelled as real numbers (`ℝ`).
- The vector store (Qdrant) is external; its operations (`scroll`, `retrieve`,
  `query_points`, `delete`, `upsert`) are modelled from the spec's description
  of the VectorIndex capability.  Each collection is a list of points in
  insertion (storage) order; `upsert` with a fresh id appends.
- The filesystem is modelled as the list of present file paths.
- The embedding model (`SentenceTransformer.encode`) is external and is
  modelled as an arbitrary function `String → Vec` carried in the
  configuration.
- The Groq explanation client is external and optional; it is modelled as an
  `Option (String → String → ℝ → Option String)` in the configuration
  (`none` = not configured; an inner `none` result models a failed call).
  To reason about *invocations* of the Explainer (not only about the returned
  explanations), every operation that may call it also returns the list of
  calls that actually reached the external client.
- PDF text extraction (pypdf) is external; an uploaded file carries the
  per-page extraction results (`none` = the page raised an extraction error),
  and `_pdf_to_text`'s page loop is embedded over those results.
- `uuid.uuid4()` fresh-id generation is modelled by a counter in the store;
  `datetime.now().isoformat()` timestamps are strings passed in by the caller.
- JSON serialization of cached results (`results_json`) is modelled as the
  identity: a snapshot stores the result list itself.
-/

namespace ResumeAnalyzer

noncomputable section

/-- Embedding vectors (the external model produces vectors in R^384;
dimension is not needed by any claim, so vectors are plain lists). -/
abbrev Vec := List ℝ

/-- Dot product of two vectors, as in the fallback path's
`dot(a, b)` (src/backend/main.py line 393-397). -/
def dotp (a b : Vec) : ℝ := (List.zipWith (fun x y => x * y) a b).sum

/-- Euclidean norm, as in the fallback path's `norm(a)`. -/
def vnorm (a : Vec) : ℝ := Real.sqrt (dotp a a)

/-- Cosine similarity `dot(a, b) / (norm(a) * norm(b))` — the fallback
path's `cosine_similarity` (src/backend/main.py lines 396-397); the spec's
glossary defines cosine similarity by the same formula, and the external
`cos_sim`/Qdrant COSINE scores are this same function. -/
def cosine_similarity (a b : Vec) : ℝ := dotp a b / (vnorm a * vnorm b)

/-- Payload of a point in the `resumes` collection. -/
structure ResumePayload where
  job_id : Option Nat
  filename : String
  pdf_path : Option String
  uploaded_at : String
  text_preview : String
  user_uploaded : Bool
  resume_name : Option String
  full_text : Option String
deriving DecidableEq

/-- A point of the `resumes` collection. -/
structure ResumePoint where
  id : Nat
  vector : Vec
  payload : ResumePayload

/-- Payload of a point in the `job_descriptions` collection. -/
structure JobPayload where
  job_name : String
  description_text : String
  created_at : String
deriving DecidableEq

/-- A point of the `job_descriptions` collection. -/
structure JobPoint where
  id : Nat
  vector : Vec
  payload : JobPayload

/-- Payload of a point in the `user_job_descriptions` collection. -/
structure SavedJobPayload where
  user_id : String
  job_name : String
  description_text : String
  created_at : String
deriving DecidableEq

/-- A point of the `user_job_descriptions` collection. -/
structure SavedJobPoint where
  id : Nat
  vector : Vec
  payload : SavedJobPayload

/-- One entry of the ranked list returned by `rank_resumes_for_job`
(src/backend/main.py lines 419-425). -/
structure RankedResume where
  resume_id : Nat
  filename : String
  score : ℝ
  rank : Nat
  explanation : Option String

/-- One entry of the match list returned by `match_resume_to_jobs` /
`match_resume_to_saved_jobs` (src/backend/main.py lines 680-685, 883-889).
`job_description_id` is `some` only for matches against saved job
descriptions, mirroring the extra key of the saved-jobs dicts. -/
structure JobMatch where
  job_description_id : Option Nat
  job_name : String
  description : String
  score : ℝ
  rank : Nat
  explanation : Option String

/-- Arguments of one call that actually reached the external Groq client
inside `_generate_explanation` (texts already truncated to 1000 characters,
as in the prompt construction at src/backend/main.py lines 169-177). -/
structure ExplainCall where
  resume_text : String
  job_description : String
  score : ℝ

/-- The deserialized `results_json` of an analysis snapshot: either an HR
ranking or a user matching result list. -/
inductive StoredResults where
  | ranking (items : List RankedResume)
  | matching (items : List JobMatch)

/-- Read a stored result as a ranking list (what `json.loads` yields for a
snapshot written by `rank_resumes_for_job`). -/
def StoredResults.asRanking : StoredResults → List RankedResume
  | .ranking l => l
  | .matching _ => []

/-- Read a stored result as a match list (what `json.loads` yields for a
snapshot written by `match_resume_to_saved_jobs`). -/
def StoredResults.asMatching : StoredResults → List JobMatch
  | .matching l => l
  | .ranking _ => []

/-- Payload of a point in the `analysis_results` collection
(src/backend/main.py lines 436-442 and 910-916). -/
structure SnapshotPayload where
  job_id : Option Nat
  resume_id : Option Nat
  result_type : String
  results : StoredResults
  timestamp : String
  count : Nat

/-- A point of the `analysis_results` collection (the placeholder vector
`[0] * 384` is kept for fidelity; it is never read). -/
structure SnapshotPoint where
  id : Nat
  vector : Vec
  payload : SnapshotPayload

/-- The shared mutable state: the four VectorIndex collections, the
filesystem (as the list of present paths) and the fresh-id counter. -/
structure Store where
  jobDescriptions : List JobPoint
  resumes : List ResumePoint
  userJobDescriptions : List SavedJobPoint
  analysisResults : List SnapshotPoint
  files : List String
  nextId : Nat

/-- Configuration surface: explanation threshold (`EXPLANATION_THRESHOLD`,
default 0.6), scan cap (`MAX_SCALE`, default 200), the optional external
explanation client and the external embedding model. -/
structure Config where
  threshold : ℝ
  maxScale : Nat
  explainer : Option (String → String → ℝ → Option String)
  encode : String → Vec

/-- Request-scoped errors, discriminated the way the HTTP layer does:
validation = 400, notFound = 404, unprocessable = 422, internal = 500. -/
inductive Err where
  | validation (detail : String)
  | notFound (detail : String)
  | unprocessable (detail : String)
  | internal (detail : String)
deriving DecidableEq

/-- An uploaded file: its HTTP content type, raw bytes, and the external
extractor's per-page results (`none` models a page whose extraction raised). -/
structure UploadedFile where
  filename : String
  contentType : String
  bytes : List Nat
  pages : List (Option String)
deriving DecidableEq

/-- A candidate resume paired with its similarity score (a Qdrant scored
point, or a scroll point with the manually attached `.score`). -/
structure ScoredResume where
  point : ResumePoint
  score : ℝ

/-- Descending-score order used to sort candidate resumes
(`search_results.sort(key=lambda x: x.score, reverse=True)`). -/
def scoreDesc (a b : ScoredResume) : Prop := b.score ≤ a.score

instance : DecidableRel scoreDesc :=
  fun a b => inferInstanceAs (Decidable (b.score ≤ a.score))

instance : IsTotal ScoredResume scoreDesc := ⟨fun a b => le_total b.score a.score⟩

instance : IsTrans ScoredResume scoreDesc := ⟨fun _ _ _ h1 h2 => le_trans h2 h1⟩

/-- Descending-score order used to sort job matches
(`job_matches.sort(key=lambda x: x["score"], reverse=True)`). -/
def jmDesc (a b : JobMatch) : Prop := b.score ≤ a.score

instance : DecidableRel jmDesc :=
  fun a b => inferInstanceAs (Decidable (b.score ≤ a.score))

instance : IsTotal JobMatch jmDesc := ⟨fun a b => le_total b.score a.score⟩

instance : IsTrans JobMatch jmDesc := ⟨fun _ _ _ h1 h2 => le_trans h2 h1⟩

/-- Descending-timestamp order used to pick the latest snapshot
(`results.sort(key=lambda x: x.payload.get("timestamp", ""), reverse=True)`);
ISO-8601 timestamps are compared as strings. -/
def snapDesc (a b : SnapshotPoint) : Prop := b.payload.timestamp ≤ a.payload.timestamp

instance : DecidableRel snapDesc :=
  fun a b => inferInstanceAs (Decidable (b.payload.timestamp ≤ a.payload.timestamp))

instance : IsTotal SnapshotPoint snapDesc := ⟨fun a b => le_total b.payload.timestamp a.payload.timestamp⟩

instance : IsTrans SnapshotPoint snapDesc := ⟨fun _ _ _ h1 h2 => le_trans h2 h1⟩

/-- Modelled from the spec: the VectorIndex's filtered scan (the external
Qdrant `scroll`): it returns the first `limit` stored points satisfying the
filter, in storage order. -/
def scrollFilter {α : Type} (p : α → Bool) (limit : Nat) (stored : List α) : List α :=
  (stored.filter p).take limit

/-- Modelled from the spec: the VectorIndex's point retrieval by id (the
external Qdrant `retrieve`): it returns the stored points carrying the
requested id; a missing id yields an empty list rather than an error (the
source itself relies on this via the emptiness checks at src/backend/main.py
lines 349 and 652). -/
def retrieveById {α : Type} (getId : α → Nat) (pid : Nat) (stored : List α) : List α :=
  stored.filter (fun x => getId x == pid)

/-- Modelled from the spec: the VectorIndex's filtered nearest-neighbor
query (the external Qdrant `query_points` with COSINE distance): it returns
up to `limit` filtered points ordered by decreasing cosine similarity to the
query vector, each carrying its similarity score. -/
def queryPoints (query : Vec) (limit : Nat) (p : ResumePoint → Bool)
    (stored : List ResumePoint) : List ScoredResume :=
  (List.insertionSort scoreDesc
    ((stored.filter p).map fun pt => { point := pt, score := cosine_similarity query pt.vector })).take limit

/-- The 1000-character prompt excerpt of a text (`text[:1000]`,
src/backend/main.py lines 170 and 173). -/
def excerpt (s : String) : String := s.take 1000

/-- The `_generate_explanation` helper (src/backend/main.py lines 155-192):
returns `None` when the Groq client is absent or the score is below the
threshold; otherwise calls the external client with the two texts truncated
to 1000 characters.  The second component records the calls that actually
reached the client (the external call itself may still fail, yielding
`none`). -/
def generateExplanation (cfg : Config) (resumeText jobDescription : String) (score : ℝ) :
    Option String × List ExplainCall :=
  match cfg.explainer with
  | none => (none, [])
  | some f =>
    if score < cfg.threshold then (none, [])
    else
      (f (excerpt resumeText) (excerpt jobDescription) score,
       [{ resume_text := excerpt resumeText, job_description := excerpt jobDescription,
          score := score }])

/-- The `_pdf_to_text` helper (src/backend/main.py lines 136-150): pages
whose extraction raised are skipped, empty page texts are skipped, the rest
are joined with newlines. -/
def pdfToText (pages : List (Option String)) : String :=
  String.intercalate "\n" ((pages.filterMap id).filter (fun s => s != ""))

/-- Python's truthiness test `not text.strip()` (src/backend/main.py lines
296 and 565): `strip()` removes leading and trailing whitespace, so the
stripped text is empty exactly when every character of `text` is
whitespace. -/
def isBlank (s : String) : Bool := s.toList.all (fun c => c.isWhitespace)

/-- The `job_id` filter used by both search paths of `rank_resumes_for_job`
(src/backend/main.py lines 364-371 and 379-386). -/
def jobFilter (jid : Nat) (p : ResumePoint) : Bool := p.payload.job_id == some jid

/-- The ranked-result construction loop of `rank_resumes_for_job`
(src/backend/main.py lines 409-425): enumerate the search results from rank
1, and for the first three ranks ask `_generate_explanation` for an
explanation.  Also collects the Explainer calls. -/
def buildRanked (cfg : Config) (jobDescription : String) :
    Nat → List ScoredResume → List RankedResume × List ExplainCall
  | _, [] => ([], [])
  | rank, r :: rest =>
    let ec := if rank ≤ 3
      then generateExplanation cfg r.point.payload.text_preview jobDescription r.score
      else (none, [])
    let tail := buildRanked cfg jobDescription (rank + 1) rest
    ({ resume_id := r.point.id, filename := r.point.payload.filename, score := r.score,
       rank := rank, explanation := ec.1 } :: tail.1,
     ec.2 ++ tail.2)

/-- The `rank_resumes_for_job` endpoint (src/backend/main.py lines 339-449).
`useNative` selects the primary `query_points` path; `useNative = false` is
the manual scroll-and-sort fallback taken when the native query raises.
Both paths feed the same ranked-result construction, and the result is also
persisted as an `analysis_results` snapshot. -/
def rankResumesForJob (cfg : Config) (useNative : Bool) (st : Store) (jid : Nat) (now : String) :
    Except Err (List RankedResume × List ExplainCall × Store) :=
  match retrieveById JobPoint.id jid st.jobDescriptions with
  | [] => .error (.notFound "Job not found")
  | jobPoint :: _ =>
    let jobVector := jobPoint.vector
    let jobDescription := jobPoint.payload.description_text
    let searchResults :=
      if useNative then
        queryPoints jobVector cfg.maxScale (jobFilter jid) st.resumes
      else
        List.insertionSort scoreDesc
          ((scrollFilter (jobFilter jid) cfg.maxScale st.resumes).map
            (fun pt => { point := pt, score := cosine_similarity jobVector pt.vector }))
    let br := buildRanked cfg jobDescription 1 searchResults
    let snapshot : SnapshotPoint :=
      { id := st.nextId, vector := List.replicate 384 0,
        payload := { job_id := some jid, resume_id := none, result_type := "hr_ranking",
                     results := .ranking br.1, timestamp := now, count := br.1.length } }
    .ok (br.1, br.2,
      { st with analysisResults := st.analysisResults ++ [snapshot], nextId := st.nextId + 1 })

/-- One entry of the request body of `match_resume_to_jobs`; both keys are
read with `.get` and may be missing. -/
structure JobDescInput where
  name : Option String
  description : Option String
deriving DecidableEq

/-- The per-job loop of `match_resume_to_jobs` (src/backend/main.py lines
662-685): entries with a missing or empty description are skipped, the rest
are embedded, scored against the resume vector and given an explanation
attempt.  Also collects the Explainer calls, in input order. -/
def buildJobMatches (cfg : Config) (resumeVector : Vec) (resumeText : String) :
    List JobDescInput → List JobMatch × List ExplainCall
  | [] => ([], [])
  | job :: rest =>
    let jobDesc := job.description.getD ""
    if jobDesc = "" then buildJobMatches cfg resumeVector resumeText rest
    else
      let score := cosine_similarity resumeVector (cfg.encode jobDesc)
      let ec := generateExplanation cfg resumeText jobDesc score
      let tail := buildJobMatches cfg resumeVector resumeText rest
      ({ job_description_id := none, job_name := job.name.getD "Untitled Job",
         description := jobDesc, score := score, rank := 0, explanation := ec.1 } :: tail.1,
       ec.2 ++ tail.2)

/-- The rank-assignment loop shared by `match_resume_to_jobs` and
`match_resume_to_saved_jobs` (src/backend/main.py lines 690-696, 894-899):
enumerate the sorted matches from rank 1 and null the explanation of every
match beyond rank 3. -/
def rankAndTrim : Nat → List JobMatch → List JobMatch
  | _, [] => []
  | rank, m :: rest =>
    { m with rank := rank, explanation := if 3 < rank then none else m.explanation } ::
      rankAndTrim (rank + 1) rest

/-- The `match_resume_to_jobs` endpoint (src/backend/main.py lines 639-697):
score the resume against each supplied job description, sort descending,
assign dense ranks and keep explanations only for the top 3. -/
def matchResumeToJobs (cfg : Config) (st : Store) (rid : Nat)
    (jobDescriptions : List JobDescInput) :
    Except Err (List JobMatch × List ExplainCall) :=
  match retrieveById ResumePoint.id rid st.resumes with
  | [] => .error (.notFound "Resume not found")
  | resumePoint :: _ =>
    let resumeText := resumePoint.payload.full_text.getD resumePoint.payload.text_preview
    let bm := buildJobMatches cfg resumePoint.vector resumeText jobDescriptions
    .ok (rankAndTrim 1 (List.insertionSort jmDesc bm.1), bm.2)

/-- The `user_id == "default"` filter of the saved-job-description scans
(src/backend/main.py lines 853-861). -/
def savedFilter (p : SavedJobPoint) : Bool := p.payload.user_id == "default"

/-- The per-saved-job loop of `match_resume_to_saved_jobs`
(src/backend/main.py lines 870-889). -/
def buildSavedMatches (cfg : Config) (resumeVector : Vec) (resumeText : String) :
    List SavedJobPoint → List JobMatch × List ExplainCall
  | [] => ([], [])
  | jp :: rest =>
    let score := cosine_similarity resumeVector jp.vector
    let ec := generateExplanation cfg resumeText jp.payload.description_text score
    let tail := buildSavedMatches cfg resumeVector resumeText rest
    ({ job_description_id := some jp.id, job_name := jp.payload.job_name,
       description := jp.payload.description_text, score := score, rank := 0,
       explanation := ec.1 } :: tail.1,
     ec.2 ++ tail.2)

/-- The `match_resume_to_saved_jobs` endpoint (src/backend/main.py lines
830-923): scroll the saved job descriptions (fixed scroll limit 100), score
them against the resume, sort, rank, trim explanations to the top 3, and
persist a `user_matching` snapshot (skipped when no saved jobs exist). -/
def matchResumeToSavedJobs (cfg : Config) (st : Store) (rid : Nat) (now : String) :
    Except Err (List JobMatch × List ExplainCall × Store) :=
  match retrieveById ResumePoint.id rid st.resumes with
  | [] => .error (.notFound "Resume not found")
  | resumePoint :: _ =>
    let resumeText := resumePoint.payload.full_text.getD resumePoint.payload.text_preview
    match scrollFilter savedFilter 100 st.userJobDescriptions with
    | [] => .ok ([], [], st)
    | sp :: scrolled =>
      let bm := buildSavedMatches cfg resumePoint.vector resumeText (sp :: scrolled)
      let ranked := rankAndTrim 1 (List.insertionSort jmDesc bm.1)
      let snapshot : SnapshotPoint :=
        { id := st.nextId, vector := List.replicate 384 0,
          payload := { job_id := none, resume_id := some rid, result_type := "user_matching",
                       results := .matching ranked, timestamp := now, count := ranked.length } }
      .ok (ranked, bm.2,
        { st with analysisResults := st.analysisResults ++ [snapshot], nextId := st.nextId + 1 })

/-- The snapshot filter of `get_latest_ranking` (src/backend/main.py lines
507-524): match on `job_id` and result type `"hr_ranking"`. -/
def rankingKey (jid : Nat) (s : SnapshotPoint) : Bool :=
  s.payload.job_id == some jid && s.payload.result_type == "hr_ranking"

/-- The snapshot filter of `get_latest_matches` (src/backend/main.py lines
704-721): match on `resume_id` and result type `"user_matching"`. -/
def matchingKey (rid : Nat) (s : SnapshotPoint) : Bool :=
  s.payload.resume_id == some rid && s.payload.result_type == "user_matching"

/-- Cached-result response of `get_latest_ranking` (the
`has_cached_results = false` shape carries defaults for the other keys). -/
structure CachedRanking where
  has_cached_results : Bool
  timestamp : Option String
  resume_count : Nat
  ranked_resumes : List RankedResume

/-- Cached-result response of `get_latest_matches`. -/
structure CachedMatches where
  has_cached_results : Bool
  timestamp : Option String
  job_count : Nat
  job_matches : List JobMatch

/-- The `get_latest_ranking` endpoint (src/backend/main.py lines 502-543):
scroll at most 10 snapshots matching the job and result type, sort them by
timestamp string descending, and return the first.  The source checks for an
empty scan before sorting; sorting the empty scan yields the same
no-cached-result branch. -/
def getLatestRanking (st : Store) (jid : Nat) : CachedRanking :=
  match List.insertionSort snapDesc (scrollFilter (rankingKey jid) 10 st.analysisResults) with
  | [] => { has_cached_results := false, timestamp := none, resume_count := 0,
            ranked_resumes := [] }
  | latest :: _ =>
    { has_cached_results := true, timestamp := some latest.payload.timestamp,
      resume_count := latest.payload.count,
      ranked_resumes := latest.payload.results.asRanking }

/-- The `get_latest_matches` endpoint (src/backend/main.py lines 699-740),
the resume-keyed analogue of `get_latest_ranking`. -/
def getLatestMatches (st : Store) (rid : Nat) : CachedMatches :=
  match List.insertionSort snapDesc (scrollFilter (matchingKey rid) 10 st.analysisResults) with
  | [] => { has_cached_results := false, timestamp := none, job_count := 0, job_matches := [] }
  | latest :: _ =>
    { has_cached_results := true, timestamp := some latest.payload.timestamp,
      job_count := latest.payload.count,
      job_matches := latest.payload.results.asMatching }

/-- Response body of `upload_user_resume`. -/
structure UserResumeResp where
  resume_id : Nat
  resume_name : String
  filename : String
deriving DecidableEq

/-- The `upload_user_resume` endpoint (src/backend/main.py lines 549-607):
reject a non-PDF content type (400), then an empty payload (400), then a PDF
with no extractable text (422); only then embed, write the PDF to disk and
upsert the resume record.  The store is returned unchanged on every error
path. -/
def uploadUserResume (cfg : Config) (st : Store) (file : UploadedFile)
    (resumeName : String) (now : String) : Except Err UserResumeResp × Store :=
  if file.contentType ≠ "application/pdf" then
    (.error (.validation "Only PDF files are supported"), st)
  else if file.bytes = [] then
    (.error (.validation "Uploaded file is empty"), st)
  else
    let text := pdfToText file.pages
    if isBlank text then
      (.error (.unprocessable "Could not extract any readable text from the PDF"), st)
    else
      let resumeId := st.nextId
      let pdfPath := "./uploads/resumes/" ++ toString resumeId ++ ".pdf"
      let newPoint : ResumePoint :=
        { id := resumeId, vector := cfg.encode text,
          payload := { job_id := none, filename := file.filename, pdf_path := some pdfPath,
                       uploaded_at := now, text_preview := text.take 500,
                       user_uploaded := true, resume_name := some resumeName,
                       full_text := some text } }
      (.ok { resume_id := resumeId, resume_name := resumeName, filename := file.filename },
       { st with resumes := st.resumes ++ [newPoint], files := st.files ++ [pdfPath],
                 nextId := st.nextId + 1 })

/-- One accepted entry of the `upload_resumes_for_job` response. -/
structure AcceptedResume where
  resume_id : Nat
  filename : String
deriving DecidableEq

/-- Response body of `upload_resumes_for_job`. -/
structure UploadResp where
  uploaded : Nat
  resumes : List AcceptedResume
deriving DecidableEq

/-- The per-file loop of `upload_resumes_for_job` (src/backend/main.py lines
283-333): non-PDF files, empty files and files with no extractable text are
silently skipped (`continue`); accepted files are embedded, written to disk
and upserted under the job, and reported as (fresh resume id, filename). -/
def processJobFiles (cfg : Config) (jid : Nat) (now : String) :
    Store → List UploadedFile → Store × List AcceptedResume
  | st, [] => (st, [])
  | st, file :: rest =>
    if file.contentType ≠ "application/pdf" then processJobFiles cfg jid now st rest
    else if file.bytes = [] then processJobFiles cfg jid now st rest
    else
      let text := pdfToText file.pages
      if isBlank text then processJobFiles cfg jid now st rest
      else
        let resumeId := st.nextId
        let pdfPath := "./uploads/resumes/" ++ toString resumeId ++ ".pdf"
        let newPoint : ResumePoint :=
          { id := resumeId, vector := cfg.encode text,
            payload := { job_id := some jid, filename := file.filename,
                         pdf_path := some pdfPath, uploaded_at := now,
                         text_preview := text.take 500, user_uploaded := false,
                         resume_name := none, full_text := none } }
        let st' := { st with resumes := st.resumes ++ [newPoint],
                             files := st.files ++ [pdfPath], nextId := st.nextId + 1 }
        let rec' := processJobFiles cfg jid now st' rest
        (rec'.1, { resume_id := resumeId, filename := file.filename } :: rec'.2)

/-- The `upload_resumes_for_job` endpoint (src/backend/main.py lines
271-337).  The source "verifies" that the job exists by calling `retrieve`
inside a try/except, but retrieval of a missing id returns an empty list
rather than raising, so the 404 branch is unreachable and the upload
proceeds for any job id. -/
def uploadResumesForJob (cfg : Config) (st : Store) (jid : Nat)
    (files : List UploadedFile) (now : String) : UploadResp × Store :=
  let pr := processJobFiles cfg jid now st files
  ({ uploaded := pr.2.length, resumes := pr.2 }, pr.1)

/-- Removal of a resume's backing PDF (`if pdf_path and
os.path.exists(pdf_path): os.remove(pdf_path)`, src/backend/main.py lines
976-982 and 1014-1016): tolerates a missing, empty or already-absent path;
the boolean reports whether a file was actually removed. -/
def removeStoredFile (files : List String) (p : Option String) : List String × Bool :=
  match p with
  | some path => if path ≠ "" ∧ path ∈ files then (files.erase path, true) else (files, false)
  | none => (files, false)

/-- Response body of `delete_job`. -/
structure DeleteJobResp where
  deleted_resumes : Nat
  message : String
deriving DecidableEq

/-- The per-resume loop of `delete_job` (src/backend/main.py lines 973-988):
for each scrolled resume, remove its PDF (counting successful removals) and
delete its record. -/
def deleteJobLoop : List ResumePoint → List String → Nat → List ResumePoint →
    List ResumePoint × List String × Nat
  | resumes, files, cnt, [] => (resumes, files, cnt)
  | resumes, files, cnt, p :: todo =>
    let fr := removeStoredFile files p.payload.pdf_path
    deleteJobLoop (resumes.filter (fun q => q.id != p.id)) fr.1
      (if fr.2 then cnt + 1 else cnt) todo

/-- The `delete_job` endpoint (src/backend/main.py lines 954-999): scroll
the resumes filed under the job (scan cap `MAX_SCALE`), delete each record
and its file, then delete the job's own record last, reporting the number of
files removed. -/
def deleteJob (cfg : Config) (st : Store) (jid : Nat) : Store × DeleteJobResp :=
  let scrolled := scrollFilter (jobFilter jid) cfg.maxScale st.resumes
  let res := deleteJobLoop st.resumes st.files 0 scrolled
  ({ st with resumes := res.1, files := res.2.1,
             jobDescriptions := st.jobDescriptions.filter (fun j => j.id != jid) },
   { deleted_resumes := res.2.2, message := "Job and associated resumes deleted" })

/-- The `delete_user_resume` endpoint (src/backend/main.py lines 1001-1028):
404 when the resume id is unknown; otherwise remove the backing PDF (if
present) and the record. -/
def deleteUserResume (st : Store) (rid : Nat) : Except Err (Store × Bool) :=
  match retrieveById ResumePoint.id rid st.resumes with
  | [] => .error (.notFound "Resume not found")
  | p :: _ =>
    let fr := removeStoredFile st.files p.payload.pdf_path
    .ok ({ st with files := fr.1, resumes := st.resumes.filter (fun q => q.id != rid) }, true)

/-- The `delete_user_job_description` endpoint (src/backend/main.py lines
818-828): the vector store's delete-by-id is idempotent and does not raise
for a missing id, so the except branch that would produce the 404 is
unreachable and the endpoint reports success for any id. -/
def deleteUserJobDescription (st : Store) (jid : Nat) : Except Err (Store × String) :=
  .ok ({ st with userJobDescriptions := st.userJobDescriptions.filter (fun j => j.id != jid) },
       "Job description deleted successfully")

/-- The three skip conditions of the bulk-upload loop, bundled: a file is
accepted iff it is a PDF, non-empty, and has extractable non-blank text. -/
def validFile (f : UploadedFile) : Bool :=
  f.contentType == "application/pdf" && f.bytes != [] && !(isBlank (pdfToText f.pages))

/-- The cached-ranking response built from one snapshot (the non-empty
branch of `get_latest_ranking`). -/
def cachedRankingOf (s : SnapshotPoint) : CachedRanking :=
  { has_cached_results := true, timestamp := some s.payload.timestamp,
    resume_count := s.payload.count, ranked_resumes := s.payload.results.asRanking }

/-- The cached-matches response built from one snapshot (the non-empty
branch of `get_latest_matches`). -/
def cachedMatchesOf (s : SnapshotPoint) : CachedMatches :=
  { has_cached_results := true, timestamp := some s.payload.timestamp,
    job_count := s.payload.count, job_matches := s.payload.results.asMatching }

/-- Resume id of the first (rank-1) entry of a ranking response. -/
def firstRankedId : Except Err (List RankedResume × List ExplainCall × Store) → Option Nat
  | .ok (m :: _, _, _) => some m.resume_id
  | _ => none

/-- Match list of a `match_resume_to_jobs` response. -/
def matchList : Except Err (List JobMatch × List ExplainCall) → List JobMatch
  | .ok (r, _) => r
  | .error _ => []

/-- Explainer-call log of a `match_resume_to_jobs` response. -/
def matchCalls : Except Err (List JobMatch × List ExplainCall) → List ExplainCall
  | .ok (_, c) => c
  | .error _ => []

/-- Number of returned matches of a `match_resume_to_saved_jobs` response. -/
def savedLen : Except Err (List JobMatch × List ExplainCall × Store) → Option Nat
  | .ok (r, _, _) => some r.length
  | .error _ => none

/-- Configuration with the scan cap set to 1 (MAX_SCALE is read from the
environment, so any positive value is a legal configuration); no Groq
client. -/
def cfgA : Config :=
  { threshold := 3 / 5, maxScale := 1, explainer := none, encode := fun _ => [] }

/-- A job posting whose description embeds to the first basis vector. -/
def jobA : JobPoint :=
  { id := 1, vector := [1, 0],
    payload := { job_name := "Backend Engineer", description_text := "JD", created_at := "t0" } }

/-- A resume orthogonal to the job vector (similarity 0), stored first. -/
def resumeA0 : ResumePoint :=
  { id := 10, vector := [0, 1],
    payload := { job_id := some 1, filename := "r0.pdf",
                 pdf_path := some "./uploads/resumes/10.pdf", uploaded_at := "t0",
                 text_preview := "P0", user_uploaded := false, resume_name := none,
                 full_text := none } }

/-- A resume aligned with the job vector (similarity 1), stored second. -/
def resumeA1 : ResumePoint :=
  { id := 11, vector := [1, 0],
    payload := { job_id := some 1, filename := "r1.pdf",
                 pdf_path := some "./uploads/resumes/11.pdf", uploaded_at := "t0",
                 text_preview := "P1", user_uploaded := false, resume_name := none,
                 full_text := none } }

/-- A store with one job and two resumes filed under it — one more than
`cfgA`'s scan cap. -/
def stA : Store :=
  { jobDescriptions := [jobA], resumes := [resumeA0, resumeA1], userJobDescriptions := [],
    analysisResults := [],
    files := ["./uploads/resumes/10.pdf", "./uploads/resumes/11.pdf"], nextId := 100 }

/-- A Groq client stub that always answers. -/
def okExplainer : String → String → ℝ → Option String := fun _ _ _ => some "ok"

/-- Default configuration (threshold 0.6, scan cap 200) with a configured
Groq client and an embedding model that maps every text to the first basis
vector. -/
def cfgB : Config :=
  { threshold := 3 / 5, maxScale := 200, explainer := some okExplainer,
    encode := fun _ => [1, 0] }

/-- A job posting for the default-configuration scenarios. -/
def jobB : JobPoint :=
  { id := 1, vector := [1, 0],
    payload := { job_name := "J", description_text := "JD", created_at := "t0" } }

/-- A single HR-uploaded resume filed under job 1. -/
def resumeB : ResumePoint :=
  { id := 10, vector := [1, 0],
    payload := { job_id := some 1, filename := "r.pdf",
                 pdf_path := some "./uploads/resumes/10.pdf", uploaded_at := "t0",
                 text_preview := "P", user_uploaded := false, resume_name := none,
                 full_text := none } }

/-- A job-seeker-uploaded resume (with stored full text). -/
def userResumeB : ResumePoint :=
  { id := 20, vector := [1, 0],
    payload := { job_id := none, filename := "me.pdf",
                 pdf_path := some "./uploads/resumes/20.pdf", uploaded_at := "t0",
                 text_preview := "FT", user_uploaded := true, resume_name := some "Me",
                 full_text := some "FT" } }

/-- One saved job description in the user's library. -/
def savedB : SavedJobPoint :=
  { id := 30, vector := [1, 0],
    payload := { user_id := "default", job_name := "S", description_text := "SD",
                 created_at := "t0" } }

/-- A store with one job, one resume under it, one personal resume and one
saved job description. -/
def stB : Store :=
  { jobDescriptions := [jobB], resumes := [resumeB, userResumeB],
    userJobDescriptions := [savedB], analysisResults := [],
    files := ["./uploads/resumes/10.pdf", "./uploads/resumes/20.pdf"], nextId := 100 }

/-- Four ad-hoc job descriptions, all non-empty. -/
def jobsC : List JobDescInput :=
  [{ name := some "A", description := some "a" }, { name := some "B", description := some "b" },
   { name := some "C", description := some "c" }, { name := some "D", description := some "d" }]

/-- One ad-hoc job list containing an entry with a missing description and
an entry with an empty description. -/
def jobsC' : List JobDescInput :=
  [{ name := some "A", description := some "a" }, { name := some "E", description := none },
   { name := some "F", description := some "" }]

/-- An `hr_ranking` analysis snapshot for job 1 with the given id and
timestamp. -/
def snapD (i : Nat) (ts : String) : SnapshotPoint :=
  { id := i, vector := [],
    payload := { job_id := some 1, resume_id := none, result_type := "hr_ranking",
                 results := .ranking [], timestamp := ts, count := 0 } }

/-- A `user_matching` analysis snapshot for resume 2 with the given id and
timestamp. -/
def snapM (i : Nat) (ts : String) : SnapshotPoint :=
  { id := i, vector := [],
    payload := { job_id := none, resume_id := some 2, result_type := "user_matching",
                 results := .matching [], timestamp := ts, count := 0 } }

/-- Eleven ranking snapshots for job 1: the first ten in storage order carry
timestamps "j" down to "a"; the eleventh — beyond the scroll limit of 10 —
carries the maximal timestamp "k". -/
def stD : Store :=
  { jobDescriptions := [], resumes := [], userJobDescriptions := [],
    analysisResults :=
      [snapD 0 "j", snapD 1 "i", snapD 2 "h", snapD 3 "g", snapD 4 "f", snapD 5 "e",
       snapD 6 "d", snapD 7 "c", snapD 8 "b", snapD 9 "a", snapD 10 "k"],
    files := [], nextId := 0 }

/-- Two successive ranking snapshots for job 1 and two successive matching
snapshots for resume 2 ("a" earlier, "b" later). -/
def stE : Store :=
  { jobDescriptions := [], resumes := [], userJobDescriptions := [],
    analysisResults := [snapD 0 "a", snapM 1 "a", snapD 2 "b", snapM 3 "b"],
    files := [], nextId := 4 }

/-- Two resumes filed under job 1, with distinct backing files. -/
def resumeF0 : ResumePoint :=
  { id := 10, vector := [],
    payload := { job_id := some 1, filename := "f0.pdf", pdf_path := some "a",
                 uploaded_at := "t0", text_preview := "P0", user_uploaded := false,
                 resume_name := none, full_text := none } }

/-- Second resume filed under job 1. -/
def resumeF1 : ResumePoint :=
  { id := 11, vector := [],
    payload := { job_id := some 1, filename := "f1.pdf", pdf_path := some "b",
                 uploaded_at := "t0", text_preview := "P1", user_uploaded := false,
                 resume_name := none, full_text := none } }

/-- A job record used by the cascading-delete scenarios. -/
def jobF : JobPoint :=
  { id := 1, vector := [],
    payload := { job_name := "F", description_text := "FD", created_at := "t0" } }

/-- A store with two resumes filed under job 1 — one more than `cfgA`'s
scan cap of 1. -/
def stF : Store :=
  { jobDescriptions := [jobF], resumes := [resumeF0, resumeF1], userJobDescriptions := [],
    analysisResults := [], files := ["a", "b"], nextId := 100 }

/-- A store with a single resume filed under job 1. -/
def stG : Store :=
  { jobDescriptions := [jobF], resumes := [resumeF0], userJobDescriptions := [],
    analysisResults := [], files := ["a"], nextId := 100 }

/-- The expected store after deleting resume 10 from `stG`: both the
record and the backing file are gone. -/
def stGdel : Store := { stG with resumes := [], files := [] }

/-- A non-PDF upload. -/
def fileNonPdf : UploadedFile :=
  { filename := "a.txt", contentType := "text/plain", bytes := [1], pages := [some "x"] }

/-- A zero-byte PDF upload. -/
def fileEmpty : UploadedFile :=
  { filename := "e.pdf", contentType := "application/pdf", bytes := [], pages := [] }

/-- A PDF upload whose pages yield no usable text: one page raises, one
yields only whitespace, one yields the empty string. -/
def fileNoText : UploadedFile :=
  { filename := "n.pdf", contentType := "application/pdf", bytes := [1],
    pages := [none, some " ", some ""] }

/-- A valid PDF upload with extractable text. -/
def fileGood : UploadedFile :=
  { filename := "good.pdf", contentType := "application/pdf", bytes := [1],
    pages := [some "x"] }

/-- The bulk-upload scenario of the spec: three valid PDFs, one empty file,
one non-PDF. -/
def filesH : List UploadedFile := [fileGood, fileGood, fileGood, fileEmpty, fileNonPdf]

/-- Two saved job descriptions: one orthogonal to the resume vector, one
aligned with it. -/
def savedI0 : SavedJobPoint :=
  { id := 31, vector := [0, 1],
    payload := { user_id := "default", job_name := "S1", description_text := "SD1",
                 created_at := "t0" } }

/-- Second saved job description. -/
def savedI1 : SavedJobPoint :=
  { id := 32, vector := [1, 0],
    payload := { user_id := "default", job_name := "S2", description_text := "SD2",
                 created_at := "t0" } }

/-- A store with one personal resume and two saved job descriptions — one
more than `cfgA`'s configured scan cap of 1. -/
def stI : Store :=
  { jobDescriptions := [], resumes := [userResumeB], userJobDescriptions := [savedI0, savedI1],
    analysisResults := [], files := [], nextId := 0 }

/-- Expected ranked list of `rank_resumes_for_job` at the scenario-B store. -/
def rankedBres : List RankedResume :=
  [{ resume_id := 10, filename := "r.pdf", score := 1, rank := 1, explanation := some "ok" }]

/-- Expected Explainer-call log of that ranking. -/
def callsBrank : List ExplainCall :=
  [{ resume_text := excerpt "P", job_description := excerpt "JD", score := 1 }]

/-- Expected store after that ranking (one persisted snapshot). -/
def stBrank : Store :=
  { stB with
    analysisResults :=
      [{ id := 100, vector := List.replicate 384 0,
         payload := { job_id := some 1, resume_id := none, result_type := "hr_ranking",
                      results := .ranking rankedBres, timestamp := "t1", count := 1 } }],
    nextId := 101 }

/-- Expected match list of `match_resume_to_jobs` on `jobsC'` (only the
entry with a non-empty description survives). -/
def matchBres : List JobMatch :=
  [{ job_description_id := none, job_name := "A", description := "a", score := 1, rank := 1,
     explanation := some "ok" }]

/-- Expected Explainer-call log of that matching. -/
def matchBcalls : List ExplainCall :=
  [{ resume_text := excerpt "FT", job_description := excerpt "a", score := 1 }]

/-- Expected match list of `match_resume_to_saved_jobs` at the scenario-B
store. -/
def savedBres : List JobMatch :=
  [{ job_description_id := some 30, job_name := "S", description := "SD", score := 1, rank := 1,
     explanation := some "ok" }]

/-- Expected Explainer-call log of that saved-jobs matching. -/
def savedBcalls : List ExplainCall :=
  [{ resume_text := excerpt "FT", job_description := excerpt "SD", score := 1 }]

/-- Expected store after that saved-jobs matching. -/
def stBsaved : Store :=
  { stB with
    analysisResults :=
      [{ id := 100, vector := List.replicate 384 0,
         payload := { job_id := none, resume_id := some 20, result_type := "user_matching",
                      results := .matching savedBres, timestamp := "t2", count := 1 } }],
    nextId := 101 }

/-- Cosine similarity of the first basis vector with itself is 1. -/
theorem cos_e1_e1 : cosine_similarity [(1 : ℝ), 0] [1, 0] = 1 := by
  norm_num [cosine_similarity, vnorm, dotp, Real.sqrt_one]

/-- Cosine similarity of orthogonal basis vectors is 0. -/
theorem cos_e1_e2 : cosine_similarity [(1 : ℝ), 0] [0, 1] = 0 := by
  norm_num [cosine_similarity, vnorm, dotp]

/-- Both search paths of `rank_resumes_for_job` reduce to the same sorted
scored list once the filtered candidate set fits under the scan cap. -/
theorem searchPaths_agree (q : Vec) (limit : Nat) (jid : Nat) (resumes : List ResumePoint)
    (h : (resumes.filter (jobFilter jid)).length ≤ limit) :
    queryPoints q limit (jobFilter jid) resumes =
      List.insertionSort scoreDesc
        ((scrollFilter (jobFilter jid) limit resumes).map
          (fun pt => { point := pt, score := cosine_similarity q pt.vector })) := by
  unfold queryPoints scrollFilter
  rw [List.take_of_length_le h, List.take_of_length_le]
  rw [(List.perm_insertionSort scoreDesc _).length_eq, List.length_map]
  exact h

/-- C1 (amended): for a fixed job and a fixed query vector, whenever the
number of resumes filed under the job does not exceed the configured scan
cap, the native nearest-neighbor query path and the manual scroll-and-sort
fallback path of `rank_resumes_for_job` produce identical responses — the
same ordering, the same scores, the same explanations and the same persisted
snapshot.  (Beyond the cap the two paths select different candidate subsets;
see the counterexample.) -/
theorem claim_c1_fallback_equiv (cfg : Config) (st : Store) (jid : Nat) (now : String)
    (h : (st.resumes.filter (jobFilter jid)).length ≤ cfg.maxScale) :
    rankResumesForJob cfg true st jid now = rankResumesForJob cfg false st jid now := by
  unfold rankResumesForJob
  cases hj : retrieveById JobPoint.id jid st.jobDescriptions with
  | nil => rfl
  | cons jobPoint rest =>
    simp only [if_true, if_false, Bool.false_eq_true, ite_false, ite_true,
      searchPaths_agree jobPoint.vector cfg.maxScale jid st.resumes h]

/-- C1 witness: at a store whose single candidate fits under the default
scan cap, the two paths coincide. -/
theorem claim_c1_witness :
    (stB.resumes.filter (jobFilter 1)).length ≤ cfgB.maxScale
    ∧ rankResumesForJob cfgB true stB 1 "t1" = rankResumesForJob cfgB false stB 1 "t1" :=
  ⟨by decide, claim_c1_fallback_equiv cfgB stB 1 "t1" (by decide)⟩

/-- C1 counterexample: with two resumes filed under the job and the scan
cap configured to 1, the native path ranks the aligned resume (id 11,
similarity 1) first, while the fallback path never sees it and ranks the
orthogonal resume (id 10, similarity 0) first — the two paths disagree on
the same fixed candidate set, refuting the claim as stated. -/
theorem claim_c1_counterexample :
    firstRankedId (rankResumesForJob cfgA true stA 1 "t1") = some 11
    ∧ firstRankedId (rankResumesForJob cfgA false stA 1 "t1") = some 10 := by
  constructor
  · norm_num [rankResumesForJob, retrieveById, stA, jobA, resumeA0, resumeA1, cfgA, queryPoints,
      jobFilter, scrollFilter, buildRanked, generateExplanation, cos_e1_e1, cos_e1_e2,
      List.insertionSort, List.orderedInsert, scoreDesc, firstRankedId, List.filter]
  · norm_num [rankResumesForJob, retrieveById, stA, jobA, resumeA0, resumeA1, cfgA, queryPoints,
      jobFilter, scrollFilter, buildRanked, generateExplanation, cos_e1_e1, cos_e1_e2,
      List.insertionSort, List.orderedInsert, scoreDesc, firstRankedId, List.filter]

/-- Evaluation of the ranking endpoint at the scenario-B store: one
candidate with similarity 1, explained by the configured client, and one
persisted snapshot. -/
theorem evalB_rank :
    rankResumesForJob cfgB true stB 1 "t1" = .ok (rankedBres, callsBrank, stBrank) := by
  norm_num [rankResumesForJob, retrieveById, stB, jobB, resumeB, userResumeB, cfgB, queryPoints,
    jobFilter, scrollFilter, buildRanked, generateExplanation, okExplainer, cos_e1_e1,
    List.insertionSort, List.orderedInsert, scoreDesc, List.filter, rankedBres, callsBrank,
    stBrank]

/-- Evaluation of `match_resume_to_jobs` at the scenario-B store on a job
list with one non-empty, one missing and one empty description: only the
non-empty entry is matched. -/
theorem evalB_match :
    matchResumeToJobs cfgB stB 20 jobsC' = .ok (matchBres, matchBcalls) := by
  norm_num [matchResumeToJobs, retrieveById, stB, jobB, resumeB, userResumeB, cfgB, jobsC',
    buildJobMatches, generateExplanation, okExplainer, cos_e1_e1, rankAndTrim,
    List.insertionSort, List.orderedInsert, jmDesc, List.filter, matchBres, matchBcalls,
    show ((10 : Nat) == 20) = false from rfl, show (("a" : String) = "") = False from by simp]

/-- Evaluation of `match_resume_to_saved_jobs` at the scenario-B store: the
single saved job description is matched with similarity 1 and a snapshot is
persisted. -/
theorem evalB_saved :
    matchResumeToSavedJobs cfgB stB 20 "t2" = .ok (savedBres, savedBcalls, stBsaved) := by
  norm_num [matchResumeToSavedJobs, retrieveById, stB, jobB, resumeB, userResumeB, cfgB, savedB,
    savedFilter, scrollFilter, buildSavedMatches, generateExplanation, okExplainer, cos_e1_e1,
    rankAndTrim, List.insertionSort, List.orderedInsert, jmDesc, List.filter, savedBres,
    savedBcalls, stBsaved, show ((10 : Nat) == 20) = false from rfl]

/-- No explanation is produced below the threshold. -/
theorem generateExplanation_below (cfg : Config) (a b : String) (s : ℝ)
    (h : s < cfg.threshold) : (generateExplanation cfg a b s).1 = none := by
  cases hx : cfg.explainer <;> simp [generateExplanation, hx, if_pos h]

/-- Every call that reaches the external client carries a score at or above
the threshold. -/
theorem generateExplanation_calls_score (cfg : Config) (a b : String) (s : ℝ) :
    ∀ c ∈ (generateExplanation cfg a b s).2, cfg.threshold ≤ c.score := by
  cases hx : cfg.explainer with
  | none => simp [generateExplanation, hx]
  | some f =>
    by_cases hs : s < cfg.threshold
    · simp [generateExplanation, hx, if_pos hs]
    · simp [generateExplanation, hx, if_neg hs]
      exact le_of_not_lt hs

/-- At most one external call per explanation attempt. -/
theorem generateExplanation_calls_length (cfg : Config) (a b : String) (s : ℝ) :
    (generateExplanation cfg a b s).2.length ≤ 1 := by
  cases hx : cfg.explainer with
  | none => simp [generateExplanation, hx]
  | some f => by_cases hs : s < cfg.threshold <;> simp [generateExplanation, hx, hs]

/-- `buildRanked` returns one match per search result. -/
theorem buildRanked_length (cfg : Config) (d : String) (k : Nat) (l : List ScoredResume) :
    (buildRanked cfg d k l).1.length = l.length := by
  induction l generalizing k with
  | nil => rfl
  | cons r rest ih => simp [buildRanked, ih]

/-- `buildRanked` keeps the scores of the search results, in order. -/
theorem buildRanked_map_score (cfg : Config) (d : String) (k : Nat) (l : List ScoredResume) :
    (buildRanked cfg d k l).1.map (fun m => m.score) = l.map (fun r => r.score) := by
  induction l generalizing k with
  | nil => rfl
  | cons r rest ih => simp [buildRanked, ih]

/-- `buildRanked` assigns the consecutive ranks `k, k+1, ...`. -/
theorem buildRanked_map_rank (cfg : Config) (d : String) (k : Nat) (l : List ScoredResume) :
    (buildRanked cfg d k l).1.map (fun m => m.rank) = List.range' k l.length := by
  induction l generalizing k with
  | nil => rfl
  | cons r rest ih => simp [buildRanked, ih, List.range']

/-- A ranked match beyond rank 3 or below the threshold carries no
explanation. -/
theorem buildRanked_explanation (cfg : Config) (d : String) (k : Nat) (l : List ScoredResume) :
    ∀ m ∈ (buildRanked cfg d k l).1, (3 < m.rank ∨ m.score < cfg.threshold) →
      m.explanation = none := by
  induction l generalizing k with
  | nil => simp [buildRanked]
  | cons r rest ih =>
    intro m hm hcond
    rw [buildRanked] at hm
    simp only [List.mem_cons] at hm
    rcases hm with rfl | hm
    · by_cases hk : k ≤ 3
      · simp only [if_pos hk] at hcond ⊢
        rcases hcond with h3 | hsc
        · omega
        · exact generateExplanation_below cfg _ d r.score hsc
      · simp [if_neg hk]
    · exact ih (k + 1) m hm hcond

/-- The ranking path calls the Explainer at most `4 - k` times when ranks
start at `k`. -/
theorem buildRanked_calls_length (cfg : Config) (d : String) (k : Nat) (l : List ScoredResume) :
    (buildRanked cfg d k l).2.length ≤ 4 - k := by
  induction l generalizing k with
  | nil => simp [buildRanked]
  | cons r rest ih =>
    rw [buildRanked]
    simp only [List.length_append]
    have htail := ih (k + 1)
    by_cases hk : k ≤ 3
    · simp only [if_pos hk]
      have hec := generateExplanation_calls_length cfg r.point.payload.text_preview d r.score
      omega
    · simp only [if_neg hk, List.length_nil]
      omega

/-- Every Explainer call of the ranking path carries a score at or above
the threshold. -/
theorem buildRanked_calls_score (cfg : Config) (d : String) (k : Nat) (l : List ScoredResume) :
    ∀ c ∈ (buildRanked cfg d k l).2, cfg.threshold ≤ c.score := by
  induction l generalizing k with
  | nil => simp [buildRanked]
  | cons r rest ih =>
    intro c hc
    rw [buildRanked] at hc
    simp only [List.mem_append] at hc
    rcases hc with hc | hc
    · by_cases hk : k ≤ 3
      · rw [if_pos hk] at hc
        exact generateExplanation_calls_score cfg _ d r.score c hc
      · rw [if_neg hk] at hc
        simp at hc
    · exact ih (k + 1) c hc

/-- `rankAndTrim` preserves the number of matches. -/
theorem rankAndTrim_length (k : Nat) (l : List JobMatch) :
    (rankAndTrim k l).length = l.length := by
  induction l generalizing k with
  | nil => rfl
  | cons m rest ih => simp [rankAndTrim, ih]

/-- `rankAndTrim` assigns the consecutive ranks `k, k+1, ...`. -/
theorem rankAndTrim_map_rank (k : Nat) (l : List JobMatch) :
    (rankAndTrim k l).map (fun m => m.rank) = List.range' k l.length := by
  induction l generalizing k with
  | nil => rfl
  | cons m rest ih => simp [rankAndTrim, ih, List.range']

/-- `rankAndTrim` keeps the scores, in order. -/
theorem rankAndTrim_map_score (k : Nat) (l : List JobMatch) :
    (rankAndTrim k l).map (fun m => m.score) = l.map (fun m => m.score) := by
  induction l generalizing k with
  | nil => rfl
  | cons m rest ih => simp [rankAndTrim, ih]

/-- `rankAndTrim` keeps the descriptions, in order. -/
theorem rankAndTrim_map_description (k : Nat) (l : List JobMatch) :
    (rankAndTrim k l).map (fun m => m.description) = l.map (fun m => m.description) := by
  induction l generalizing k with
  | nil => rfl
  | cons m rest ih => simp [rankAndTrim, ih]

/-- After `rankAndTrim`, a match beyond rank 3 or below the threshold
carries no explanation, provided below-threshold inputs already carried
none. -/
theorem rankAndTrim_explanation (t : ℝ) : ∀ (k : Nat) (l : List JobMatch),
    (∀ m ∈ l, m.score < t → m.explanation = none) →
    ∀ m ∈ rankAndTrim k l, (3 < m.rank ∨ m.score < t) → m.explanation = none := by
  intro k l
  induction l generalizing k with
  | nil => simp [rankAndTrim]
  | cons m rest ih =>
    intro hl x hx hcond
    rw [rankAndTrim] at hx
    simp only [List.mem_cons] at hx
    rcases hx with rfl | hx
    · by_cases hk : 3 < k
      · simp [if_pos hk]
      · simp only [if_neg hk] at hcond ⊢
        rcases hcond with h3 | hsc
        · omega
        · exact hl m (List.mem_cons_self m rest) hsc
    · exact ih (k + 1) (fun y hy => hl y (List.mem_cons_of_mem m hy)) x hx hcond

/-- Before ranking, a below-threshold ad-hoc match carries no explanation. -/
theorem buildJobMatches_explanation (cfg : Config) (v : Vec) (t : String)
    (jobs : List JobDescInput) :
    ∀ m ∈ (buildJobMatches cfg v t jobs).1, m.score < cfg.threshold → m.explanation = none := by
  induction jobs with
  | nil => simp [buildJobMatches]
  | cons j rest ih =>
    intro m hm hsc
    rw [buildJobMatches] at hm
    by_cases hd : j.description.getD "" = ""
    · rw [if_pos hd] at hm
      exact ih m hm hsc
    · rw [if_neg hd] at hm
      simp only [List.mem_cons] at hm
      rcases hm with rfl | hm
      · exact generateExplanation_below cfg t _ _ hsc
      · exact ih m hm hsc

/-- Every Explainer call of the ad-hoc matching path carries a score at or
above the threshold. -/
theorem buildJobMatches_calls_score (cfg : Config) (v : Vec) (t : String)
    (jobs : List JobDescInput) :
    ∀ c ∈ (buildJobMatches cfg v t jobs).2, cfg.threshold ≤ c.score := by
  induction jobs with
  | nil => simp [buildJobMatches]
  | cons j rest ih =>
    intro c hc
    rw [buildJobMatches] at hc
    by_cases hd : j.description.getD "" = ""
    · rw [if_pos hd] at hc
      exact ih c hc
    · rw [if_neg hd] at hc
      simp only [List.mem_append] at hc
      rcases hc with hc | hc
      · exact generateExplanation_calls_score cfg t _ _ c hc
      · exact ih c hc

/-- The ad-hoc matching path matches exactly the entries whose description
is present and non-empty, keeping their descriptions in input order. -/
theorem buildJobMatches_map_description (cfg : Config) (v : Vec) (t : String)
    (jobs : List JobDescInput) :
    (buildJobMatches cfg v t jobs).1.map (fun m => m.description)
      = (jobs.filter (fun j => j.description.getD "" != "")).map
          (fun j => j.description.getD "") := by
  induction jobs with
  | nil => rfl
  | cons j rest ih =>
    rw [buildJobMatches]
    by_cases hd : j.description.getD "" = ""
    · rw [if_pos hd]
      simp [List.filter_cons, hd, ih]
    · rw [if_neg hd]
      simp [List.filter_cons, hd, ih]

/-- A below-threshold saved-job match carries no explanation before
ranking. -/
theorem buildSavedMatches_explanation (cfg : Config) (v : Vec) (t : String)
    (l : List SavedJobPoint) :
    ∀ m ∈ (buildSavedMatches cfg v t l).1, m.score < cfg.threshold → m.explanation = none := by
  induction l with
  | nil => simp [buildSavedMatches]
  | cons jp rest ih =>
    intro m hm hsc
    rw [buildSavedMatches] at hm
    simp only [List.mem_cons] at hm
    rcases hm with rfl | hm
    · exact generateExplanation_below cfg t _ _ hsc
    · exact ih m hm hsc

/-- Every Explainer call of the saved-jobs matching path carries a score at
or above the threshold. -/
theorem buildSavedMatches_calls_score (cfg : Config) (v : Vec) (t : String)
    (l : List SavedJobPoint) :
    ∀ c ∈ (buildSavedMatches cfg v t l).2, cfg.threshold ≤ c.score := by
  induction l with
  | nil => simp [buildSavedMatches]
  | cons jp rest ih =>
    intro c hc
    rw [buildSavedMatches] at hc
    simp only [List.mem_append] at hc
    rcases hc with hc | hc
    · exact generateExplanation_calls_score cfg t _ _ c hc
    · exact ih c hc

/-- The saved-jobs matching path scores every scrolled saved job. -/
theorem buildSavedMatches_length (cfg : Config) (v : Vec) (t : String)
    (l : List SavedJobPoint) :
    (buildSavedMatches cfg v t l).1.length = l.length := by
  induction l with
  | nil => rfl
  | cons jp rest ih => simp [buildSavedMatches, ih]

/-- A score-descending-sorted scored-resume list has a non-increasing score
sequence. -/
theorem sorted_scores_scored (l : List ScoredResume) (h : List.Sorted scoreDesc l) :
    List.Sorted (fun a b : ℝ => b ≤ a) (l.map (fun r => r.score)) :=
  List.pairwise_map.mpr h

/-- A score-descending-sorted match list has a non-increasing score
sequence. -/
theorem sorted_scores_matches (l : List JobMatch) (h : List.Sorted jmDesc l) :
    List.Sorted (fun a b : ℝ => b ≤ a) (l.map (fun m => m.score)) :=
  List.pairwise_map.mpr h

/-- Both search paths of `rank_resumes_for_job` return a score-descending
list. -/
theorem searchResults_sorted (useNative : Bool) (q : Vec) (limit : Nat) (jid : Nat)
    (resumes : List ResumePoint) :
    List.Sorted scoreDesc
      (if useNative then queryPoints q limit (jobFilter jid) resumes
       else List.insertionSort scoreDesc
         ((scrollFilter (jobFilter jid) limit resumes).map
           (fun pt => { point := pt, score := cosine_similarity q pt.vector }))) := by
  cases useNative with
  | false =>
    simp only [Bool.false_eq_true, if_false]
    exact List.sorted_insertionSort scoreDesc _
  | true =>
    simp only [if_true]
    exact List.Pairwise.sublist (List.take_sublist _ _) (List.sorted_insertionSort scoreDesc _)

/-- Inversion of a successful ranking: the job was found and the response is
`buildRanked` applied to a score-sorted candidate list of size at most the
scan cap. -/
theorem rankResumesForJob_ok (cfg : Config) (useNative : Bool) (st : Store) (jid : Nat)
    (now : String) (res : List RankedResume) (calls : List ExplainCall) (st' : Store)
    (h : rankResumesForJob cfg useNative st jid now = .ok (res, calls, st')) :
    ∃ jobPoint rest, retrieveById JobPoint.id jid st.jobDescriptions = jobPoint :: rest
      ∧ ∃ sr, List.Sorted scoreDesc sr ∧ sr.length ≤ cfg.maxScale
        ∧ res = (buildRanked cfg jobPoint.payload.description_text 1 sr).1
        ∧ calls = (buildRanked cfg jobPoint.payload.description_text 1 sr).2 := by
  unfold rankResumesForJob at h
  revert h
  cases hj : retrieveById JobPoint.id jid st.jobDescriptions with
  | nil => intro h; exact absurd h (by simp)
  | cons jobPoint rest =>
    intro h
    refine ⟨jobPoint, rest, rfl,
      if useNative then queryPoints jobPoint.vector cfg.maxScale (jobFilter jid) st.resumes
      else List.insertionSort scoreDesc
        ((scrollFilter (jobFilter jid) cfg.maxScale st.resumes).map
          (fun pt => { point := pt, score := cosine_similarity jobPoint.vector pt.vector })),
      searchResults_sorted useNative jobPoint.vector cfg.maxScale jid st.resumes, ?_, ?_, ?_⟩
    · cases useNative with
      | false =>
        simp only [Bool.false_eq_true, if_false]
        rw [(List.perm_insertionSort scoreDesc _).length_eq, List.length_map]
        exact List.length_take_le _ _
      | true =>
        simp only [if_true]
        exact List.length_take_le _ _
    · simp only [Except.ok.injEq, Prod.mk.injEq] at h
      exact h.1.symm
    · simp only [Except.ok.injEq, Prod.mk.injEq] at h
      exact h.2.1.symm

/-- Inversion of a successful ad-hoc matching: the resume was found and the
response is the sort-rank-trim pipeline over `buildJobMatches`. -/
theorem matchResumeToJobs_ok (cfg : Config) (st : Store) (rid : Nat)
    (jobs : List JobDescInput) (res : List JobMatch) (calls : List ExplainCall)
    (h : matchResumeToJobs cfg st rid jobs = .ok (res, calls)) :
    ∃ rp rest, retrieveById ResumePoint.id rid st.resumes = rp :: rest
      ∧ res = rankAndTrim 1 (List.insertionSort jmDesc
          (buildJobMatches cfg rp.vector
            (rp.payload.full_text.getD rp.payload.text_preview) jobs).1)
      ∧ calls = (buildJobMatches cfg rp.vector
          (rp.payload.full_text.getD rp.payload.text_preview) jobs).2 := by
  unfold matchResumeToJobs at h
  revert h
  cases hj : retrieveById ResumePoint.id rid st.resumes with
  | nil => intro h; exact absurd h (by simp)
  | cons rp rest =>
    intro h
    simp only [Except.ok.injEq, Prod.mk.injEq] at h
    exact ⟨rp, rest, rfl, h.1.symm, h.2.symm⟩

/-- Inversion of a successful saved-jobs matching: the resume was found,
and either the saved library scan is empty (empty response) or the response
is the sort-rank-trim pipeline over `buildSavedMatches` of the scanned
library. -/
theorem matchResumeToSavedJobs_ok (cfg : Config) (st : Store) (rid : Nat) (now : String)
    (res : List JobMatch) (calls : List ExplainCall) (st' : Store)
    (h : matchResumeToSavedJobs cfg st rid now = .ok (res, calls, st')) :
    ∃ rp rest, retrieveById ResumePoint.id rid st.resumes = rp :: rest
      ∧ ((scrollFilter savedFilter 100 st.userJobDescriptions = [] ∧ res = [] ∧ calls = [])
        ∨ ∃ sp scrolled, scrollFilter savedFilter 100 st.userJobDescriptions = sp :: scrolled
          ∧ res = rankAndTrim 1 (List.insertionSort jmDesc
              (buildSavedMatches cfg rp.vector
                (rp.payload.full_text.getD rp.payload.text_preview) (sp :: scrolled)).1)
          ∧ calls = (buildSavedMatches cfg rp.vector
              (rp.payload.full_text.getD rp.payload.text_preview) (sp :: scrolled)).2) := by
  unfold matchResumeToSavedJobs at h
  revert h
  cases hj : retrieveById ResumePoint.id rid st.resumes with
  | nil => intro h; exact absurd h (by simp)
  | cons rp rest =>
    cases hs : scrollFilter savedFilter 100 st.userJobDescriptions with
    | nil =>
      intro h
      simp only [Except.ok.injEq, Prod.mk.injEq] at h
      exact ⟨rp, rest, rfl, Or.inl ⟨rfl, h.1.symm, h.2.1.symm⟩⟩
    | cons sp scrolled =>
      intro h
      simp only [Except.ok.injEq, Prod.mk.injEq] at h
      exact ⟨rp, rest, rfl, Or.inr ⟨sp, scrolled, rfl, h.1.symm, h.2.1.symm⟩⟩

/-- C3: for every returned ranking or match list — from
`rank_resumes_for_job` (either search path), `match_resume_to_jobs` or
`match_resume_to_saved_jobs` — the scores are non-increasing in list order
and the ranks are exactly the dense sequence 1, 2, ..., n. -/
theorem claim_c3_rank_monotonicity :
    (∀ cfg useNative st jid now res calls st',
        rankResumesForJob cfg useNative st jid now = .ok (res, calls, st') →
        List.Sorted (fun a b : ℝ => b ≤ a) (res.map (fun m => m.score))
        ∧ res.map (fun m => m.rank) = List.range' 1 res.length)
    ∧ (∀ cfg st rid jobs res calls,
        matchResumeToJobs cfg st rid jobs = .ok (res, calls) →
        List.Sorted (fun a b : ℝ => b ≤ a) (res.map (fun m => m.score))
        ∧ res.map (fun m => m.rank) = List.range' 1 res.length)
    ∧ (∀ cfg st rid now res calls st',
        matchResumeToSavedJobs cfg st rid now = .ok (res, calls, st') →
        List.Sorted (fun a b : ℝ => b ≤ a) (res.map (fun m => m.score))
        ∧ res.map (fun m => m.rank) = List.range' 1 res.length) := by
  refine ⟨?_, ?_, ?_⟩
  · intro cfg useNative st jid now res calls st' h
    obtain ⟨jobPoint, rest, hj, sr, hsorted, hlen, hres, hcalls⟩ :=
      rankResumesForJob_ok cfg useNative st jid now res calls st' h
    subst hres
    constructor
    · rw [buildRanked_map_score]
      exact sorted_scores_scored sr hsorted
    · rw [buildRanked_map_rank, buildRanked_length]
  · intro cfg st rid jobs res calls h
    obtain ⟨rp, rest, hj, hres, hcalls⟩ := matchResumeToJobs_ok cfg st rid jobs res calls h
    subst hres
    constructor
    · rw [rankAndTrim_map_score]
      exact sorted_scores_matches _ (List.sorted_insertionSort jmDesc _)
    · rw [rankAndTrim_map_rank, rankAndTrim_length]
  · intro cfg st rid now res calls st' h
    obtain ⟨rp, rest, hj, hcase⟩ := matchResumeToSavedJobs_ok cfg st rid now res calls st' h
    rcases hcase with ⟨hs, hres, hcalls⟩ | ⟨sp, scrolled, hs, hres, hcalls⟩
    · subst hres
      exact ⟨List.sorted_nil, rfl⟩
    · subst hres
      constructor
      · rw [rankAndTrim_map_score]
        exact sorted_scores_matches _ (List.sorted_insertionSort jmDesc _)
      · rw [rankAndTrim_map_rank, rankAndTrim_length]

/-- C3 witness: the property instantiated at the scenario-B evaluations
of all three operations. -/
theorem claim_c3_witness :
    (List.Sorted (fun a b : ℝ => b ≤ a) (rankedBres.map (fun m => m.score))
      ∧ rankedBres.map (fun m => m.rank) = List.range' 1 rankedBres.length)
    ∧ (List.Sorted (fun a b : ℝ => b ≤ a) (matchBres.map (fun m => m.score))
      ∧ matchBres.map (fun m => m.rank) = List.range' 1 matchBres.length)
    ∧ (List.Sorted (fun a b : ℝ => b ≤ a) (savedBres.map (fun m => m.score))
      ∧ savedBres.map (fun m => m.rank) = List.range' 1 savedBres.length) :=
  ⟨claim_c3_rank_monotonicity.1 cfgB true stB 1 "t1" rankedBres callsBrank stBrank evalB_rank,
   claim_c3_rank_monotonicity.2.1 cfgB stB 20 jobsC' matchBres matchBcalls evalB_match,
   claim_c3_rank_monotonicity.2.2 cfgB stB 20 "t2" savedBres savedBcalls stBsaved evalB_saved⟩

/-- C2 (amended): in every returned match list, a match whose final rank
exceeds 3 or whose score is below the configured threshold carries a null
explanation.  In `rank_resumes_for_job` the Explainer is moreover invoked
at most 3 times and only with scores at or above the threshold.  In
`match_resume_to_jobs` and `match_resume_to_saved_jobs`, however, each
invocation is still guarded by the threshold but not by the final rank: the
Explainer is invoked once per candidate whose score reaches the threshold —
also for candidates whose final rank exceeds 3, whose explanations are then
discarded (see the counterexample). -/
theorem claim_c2_explanation_policy :
    (∀ cfg useNative st jid now res calls st',
        rankResumesForJob cfg useNative st jid now = .ok (res, calls, st') →
        (∀ m ∈ res, (3 < m.rank ∨ m.score < cfg.threshold) → m.explanation = none)
        ∧ calls.length ≤ 3
        ∧ (∀ c ∈ calls, cfg.threshold ≤ c.score))
    ∧ (∀ cfg st rid jobs res calls,
        matchResumeToJobs cfg st rid jobs = .ok (res, calls) →
        (∀ m ∈ res, (3 < m.rank ∨ m.score < cfg.threshold) → m.explanation = none)
        ∧ (∀ c ∈ calls, cfg.threshold ≤ c.score))
    ∧ (∀ cfg st rid now res calls st',
        matchResumeToSavedJobs cfg st rid now = .ok (res, calls, st') →
        (∀ m ∈ res, (3 < m.rank ∨ m.score < cfg.threshold) → m.explanation = none)
        ∧ (∀ c ∈ calls, cfg.threshold ≤ c.score)) := by
  refine ⟨?_, ?_, ?_⟩
  · intro cfg useNative st jid now res calls st' h
    obtain ⟨jobPoint, rest, hj, sr, hsorted, hlen, hres, hcalls⟩ :=
      rankResumesForJob_ok cfg useNative st jid now res calls st' h
    subst hres; subst hcalls
    refine ⟨buildRanked_explanation cfg _ 1 sr, ?_, buildRanked_calls_score cfg _ 1 sr⟩
    have := buildRanked_calls_length cfg jobPoint.payload.description_text 1 sr
    omega
  · intro cfg st rid jobs res calls h
    obtain ⟨rp, rest, hj, hres, hcalls⟩ := matchResumeToJobs_ok cfg st rid jobs res calls h
    subst hres; subst hcalls
    constructor
    · refine rankAndTrim_explanation cfg.threshold 1 _ ?_
      intro m hm
      exact buildJobMatches_explanation cfg rp.vector _ jobs m
        ((List.perm_insertionSort jmDesc _).subset hm)
    · exact buildJobMatches_calls_score cfg rp.vector _ jobs
  · intro cfg st rid now res calls st' h
    obtain ⟨rp, rest, hj, hcase⟩ := matchResumeToSavedJobs_ok cfg st rid now res calls st' h
    rcases hcase with ⟨hs, hres, hcalls⟩ | ⟨sp, scrolled, hs, hres, hcalls⟩
    · subst hres; subst hcalls
      simp
    · subst hres; subst hcalls
      constructor
      · refine rankAndTrim_explanation cfg.threshold 1 _ ?_
        intro m hm
        exact buildSavedMatches_explanation cfg rp.vector _ (sp :: scrolled) m
          ((List.perm_insertionSort jmDesc _).subset hm)
      · exact buildSavedMatches_calls_score cfg rp.vector _ (sp :: scrolled)

/-- C2 witness: the amended policy instantiated at the scenario-B
evaluations of all three operations. -/
theorem claim_c2_witness :
    ((∀ m ∈ rankedBres, (3 < m.rank ∨ m.score < cfgB.threshold) → m.explanation = none)
      ∧ callsBrank.length ≤ 3 ∧ (∀ c ∈ callsBrank, cfgB.threshold ≤ c.score))
    ∧ ((∀ m ∈ matchBres, (3 < m.rank ∨ m.score < cfgB.threshold) → m.explanation = none)
      ∧ (∀ c ∈ matchBcalls, cfgB.threshold ≤ c.score))
    ∧ ((∀ m ∈ savedBres, (3 < m.rank ∨ m.score < cfgB.threshold) → m.explanation = none)
      ∧ (∀ c ∈ savedBcalls, cfgB.threshold ≤ c.score)) :=
  ⟨claim_c2_explanation_policy.1 cfgB true stB 1 "t1" rankedBres callsBrank stBrank evalB_rank,
   claim_c2_explanation_policy.2.1 cfgB stB 20 jobsC' matchBres matchBcalls evalB_match,
   claim_c2_explanation_policy.2.2 cfgB stB 20 "t2" savedBres savedBcalls stBsaved evalB_saved⟩

/-- C2 counterexample: under the default configuration with a configured
Explainer, matching a resume against four job descriptions that all score 1
(at or above the threshold 0.6) produces four Explainer invocations — one
per candidate — although only the three candidates with final rank at most
3 are eligible; the invocation made for the rank-4 candidate (description
"d") refutes the claim that the Explainer is invoked only for eligible
candidates.  Its discarded explanation shows up as the null explanation of
the rank-4 match. -/
theorem claim_c2_counterexample :
    (matchList (matchResumeToJobs cfgB stB 20 jobsC)).map (fun m => (m.rank, m.explanation))
      = [(1, some "ok"), (2, some "ok"), (3, some "ok"), (4, none)]
    ∧ (matchList (matchResumeToJobs cfgB stB 20 jobsC)).map (fun m => m.score) = [1, 1, 1, 1]
    ∧ (matchCalls (matchResumeToJobs cfgB stB 20 jobsC)).map (fun c => c.job_description)
      = [excerpt "a", excerpt "b", excerpt "c", excerpt "d"]
    ∧ cfgB.threshold ≤ 1 := by
  refine ⟨?_, ?_, ?_, by norm_num [cfgB]⟩ <;>
    norm_num [matchResumeToJobs, retrieveById, stB, resumeB, userResumeB, cfgB, jobsC,
      buildJobMatches, generateExplanation, okExplainer, cos_e1_e1, rankAndTrim,
      List.insertionSort, List.orderedInsert, jmDesc, List.filter, matchList, matchCalls,
      show ((10 : Nat) == 20) = false from rfl,
      show (("a" : String) = "") = False from by simp,
      show (("b" : String) = "") = False from by simp,
      show (("c" : String) = "") = False from by simp,
      show (("d" : String) = "") = False from by simp]

/-- The head of the timestamp-descending sort of a non-empty snapshot list
is a member carrying the maximal timestamp. -/
theorem insertionSort_head_max (l : List SnapshotPoint) (hne : l ≠ []) :
    ∃ best t, List.insertionSort snapDesc l = best :: t ∧ best ∈ l
      ∧ ∀ s ∈ l, s.payload.timestamp ≤ best.payload.timestamp := by
  cases hs : List.insertionSort snapDesc l with
  | nil =>
    have hperm := List.perm_insertionSort snapDesc l
    rw [hs] at hperm
    exact absurd (hperm.symm.eq_nil) hne
  | cons best t =>
    have hperm := List.perm_insertionSort snapDesc l
    have hsorted := List.sorted_insertionSort snapDesc l
    rw [hs] at hperm hsorted
    refine ⟨best, t, rfl, hperm.subset (List.mem_cons_self best t), ?_⟩
    intro s hsl
    rcases List.mem_cons.mp (hperm.symm.subset hsl) with rfl | hmem
    · exact le_refl _
    · exact List.rel_of_sorted_cons hsorted s hmem

/-- C4 (amended): `get_latest_ranking` and `get_latest_matches` return the
no-cached-result indicator exactly when no snapshot matches the key, and —
whenever at most 10 snapshots match the key, so that the scroll limit of 10
does not truncate the scan — they return the matching snapshot with the
maximal timestamp (in particular, after two successive rankings for the
same key, the later one).  With more than 10 matching snapshots the scan
may miss the latest (see the counterexample). -/
theorem claim_c4_latest_snapshot :
    (∀ st jid, st.analysisResults.filter (rankingKey jid) = [] →
        getLatestRanking st jid =
          { has_cached_results := false, timestamp := none, resume_count := 0,
            ranked_resumes := [] })
    ∧ (∀ st jid, st.analysisResults.filter (rankingKey jid) ≠ [] →
        (st.analysisResults.filter (rankingKey jid)).length ≤ 10 →
        ∃ best ∈ st.analysisResults.filter (rankingKey jid),
          getLatestRanking st jid = cachedRankingOf best
          ∧ ∀ s ∈ st.analysisResults.filter (rankingKey jid),
              s.payload.timestamp ≤ best.payload.timestamp)
    ∧ (∀ st rid, st.analysisResults.filter (matchingKey rid) = [] →
        getLatestMatches st rid =
          { has_cached_results := false, timestamp := none, job_count := 0, job_matches := [] })
    ∧ (∀ st rid, st.analysisResults.filter (matchingKey rid) ≠ [] →
        (st.analysisResults.filter (matchingKey rid)).length ≤ 10 →
        ∃ best ∈ st.analysisResults.filter (matchingKey rid),
          getLatestMatches st rid = cachedMatchesOf best
          ∧ ∀ s ∈ st.analysisResults.filter (matchingKey rid),
              s.payload.timestamp ≤ best.payload.timestamp) := by
  refine ⟨?_, ?_, ?_, ?_⟩
  · intro st jid h
    unfold getLatestRanking scrollFilter
    rw [h]
    rfl
  · intro st jid hne hlen
    have hscroll : scrollFilter (rankingKey jid) 10 st.analysisResults
        = st.analysisResults.filter (rankingKey jid) := List.take_of_length_le hlen
    obtain ⟨best, t, hs, hmem, hmax⟩ := insertionSort_head_max _ hne
    refine ⟨best, hmem, ?_, hmax⟩
    unfold getLatestRanking
    rw [hscroll, hs]
    rfl
  · intro st rid h
    unfold getLatestMatches scrollFilter
    rw [h]
    rfl
  · intro st rid hne hlen
    have hscroll : scrollFilter (matchingKey rid) 10 st.analysisResults
        = st.analysisResults.filter (matchingKey rid) := List.take_of_length_le hlen
    obtain ⟨best, t, hs, hmem, hmax⟩ := insertionSort_head_max _ hne
    refine ⟨best, hmem, ?_, hmax⟩
    unfold getLatestMatches
    rw [hscroll, hs]
    rfl

/-- C4 witness: at a store holding two successive ranking snapshots for job
1 and two successive matching snapshots for resume 2, both getters return a
maximal-timestamp snapshot; at a store with no snapshots both return the
no-cached-result indicator. -/
theorem claim_c4_witness :
    (∃ best ∈ stE.analysisResults.filter (rankingKey 1),
        getLatestRanking stE 1 = cachedRankingOf best
        ∧ ∀ s ∈ stE.analysisResults.filter (rankingKey 1),
            s.payload.timestamp ≤ best.payload.timestamp)
    ∧ (∃ best ∈ stE.analysisResults.filter (matchingKey 2),
        getLatestMatches stE 2 = cachedMatchesOf best
        ∧ ∀ s ∈ stE.analysisResults.filter (matchingKey 2),
            s.payload.timestamp ≤ best.payload.timestamp)
    ∧ getLatestRanking stB 1 =
        { has_cached_results := false, timestamp := none, resume_count := 0,
          ranked_resumes := [] }
    ∧ getLatestMatches stB 2 =
        { has_cached_results := false, timestamp := none, job_count := 0, job_matches := [] } := by
  have hr : stE.analysisResults.filter (rankingKey 1) = [snapD 0 "a", snapD 2 "b"] := rfl
  have hm : stE.analysisResults.filter (matchingKey 2) = [snapM 1 "a", snapM 3 "b"] := rfl
  refine ⟨claim_c4_latest_snapshot.2.1 stE 1 ?_ ?_,
    claim_c4_latest_snapshot.2.2.2 stE 2 ?_ ?_,
    claim_c4_latest_snapshot.1 stB 1 rfl,
    claim_c4_latest_snapshot.2.2.1 stB 2 rfl⟩
  · rw [hr]; exact List.cons_ne_nil _ _
  · rw [hr]; simp
  · rw [hm]; exact List.cons_ne_nil _ _
  · rw [hm]; simp

/-- C4 counterexample: with eleven ranking snapshots persisted for job 1 —
the first ten in storage order carrying timestamps "j" down to "a" and the
eleventh carrying the maximal timestamp "k" — the scroll limit of 10 makes
`get_latest_ranking` return the snapshot with timestamp "j", not the
matching persisted snapshot with the maximal timestamp "k"; this refutes
the claim that the maximum over all persisted snapshots is returned. -/
theorem claim_c4_counterexample :
    (getLatestRanking stD 1).timestamp = some "j"
    ∧ snapD 10 "k" ∈ stD.analysisResults
    ∧ rankingKey 1 (snapD 10 "k") = true
    ∧ ("j" : String) < "k" := by
  refine ⟨?_, by simp [stD], rfl, String.lt_iff_toList_lt.mpr (by decide)⟩
  have hscroll : scrollFilter (rankingKey 1) 10 stD.analysisResults
      = [snapD 0 "j", snapD 1 "i", snapD 2 "h", snapD 3 "g", snapD 4 "f", snapD 5 "e",
         snapD 6 "d", snapD 7 "c", snapD 8 "b", snapD 9 "a"] := rfl
  have hsorted : List.Sorted snapDesc
      [snapD 0 "j", snapD 1 "i", snapD 2 "h", snapD 3 "g", snapD 4 "f", snapD 5 "e",
       snapD 6 "d", snapD 7 "c", snapD 8 "b", snapD 9 "a"] := by
    simp only [List.sorted_cons, List.mem_cons, List.mem_singleton, List.not_mem_nil,
      snapDesc, snapD]
    simp [String.le_iff_toList_le]
    decide
  unfold getLatestRanking
  rw [hscroll, List.Sorted.insertionSort_eq hsorted]
  rfl

/-- With pairwise-distinct ids, retrieval by a stored id returns exactly
that point. -/
theorem retrieveById_nodup {α : Type} (getId : α → Nat) (rid : Nat) (l : List α)
    (hn : (l.map getId).Nodup) (p : α) (hp : p ∈ l) (hid : getId p = rid) :
    retrieveById getId rid l = [p] := by
  unfold retrieveById
  induction l with
  | nil => simp at hp
  | cons a rest ih =>
    simp only [List.map_cons, List.nodup_cons, List.mem_map, not_exists] at hn
    rcases List.mem_cons.mp hp with rfl | hmem
    · rw [List.filter_cons, if_pos (by simp [hid])]
      have hrest : rest.filter (fun x => getId x == rid) = [] := by
        rw [List.filter_eq_nil_iff]
        intro x hx
        simp only [beq_iff_eq]
        intro he
        exact hn.1 x ⟨hx, he.trans hid.symm⟩
      rw [hrest]
    · have hane : ¬ ((getId a == rid) = true) := by
        simp only [beq_iff_eq]
        intro he
        exact hn.1 p ⟨hmem, hid.trans he.symm⟩
      rw [List.filter_cons, if_neg hane]
      exact ih hn.2 hmem

/-- Removing a stored file shrinks the filesystem by exactly the number of
removals reported. -/
theorem removeStoredFile_length (files : List String) (p : Option String) :
    (removeStoredFile files p).1.length
      + (if (removeStoredFile files p).2 then 1 else 0) = files.length := by
  unfold removeStoredFile
  cases p with
  | none => simp
  | some path =>
    by_cases h : path ≠ "" ∧ path ∈ files
    · have hpos : files ≠ [] := by
        intro hnil
        rw [hnil] at h
        simp at h
      have hlen := List.length_erase_of_mem h.2
      have hfp : 0 < files.length := List.length_pos.mpr hpos
      simp only [if_pos h]
      show (files.erase path).length + 1 = files.length
      omega
    · simp [if_neg h]

/-- After the cascading-delete loop, no resume whose id was in the work
list survives with the deleted job's id: if every record filed under `jid`
appears in the work list, none remains. -/
theorem deleteJobLoop_clears (jid : Nat) : ∀ (todo resumes : List ResumePoint)
    (files : List String) (cnt : Nat),
    (∀ q ∈ resumes, q.payload.job_id = some jid → q.id ∈ todo.map (fun p => p.id)) →
    ∀ q ∈ (deleteJobLoop resumes files cnt todo).1, q.payload.job_id ≠ some jid := by
  intro todo
  induction todo with
  | nil =>
    intro resumes files cnt hinv q hq hjid
    exact absurd (hinv q hq hjid) (by simp)
  | cons p rest ih =>
    intro resumes files cnt hinv q hq
    rw [deleteJobLoop] at hq
    refine ih _ _ _ ?_ q hq
    intro r hr hjid
    have hrmem : r ∈ resumes := (List.mem_filter.mp hr).1
    have hkeep : (r.id != p.id) = true := (List.mem_filter.mp hr).2
    have := hinv r hrmem hjid
    simp only [List.map_cons, List.mem_cons] at this
    rcases this with heq | hmem
    · simp [heq] at hkeep
    · exact hmem

/-- The cascading-delete loop removes exactly as many files as it counts. -/
theorem deleteJobLoop_files : ∀ (todo resumes : List ResumePoint)
    (files : List String) (cnt : Nat),
    (deleteJobLoop resumes files cnt todo).2.1.length + (deleteJobLoop resumes files cnt todo).2.2
      = files.length + cnt := by
  intro todo
  induction todo with
  | nil => intro resumes files cnt; rfl
  | cons p rest ih =>
    intro resumes files cnt
    rw [deleteJobLoop]
    rw [ih]
    have hlen := removeStoredFile_length files p.payload.pdf_path
    by_cases hb : (removeStoredFile files p.payload.pdf_path).2 <;>
      simp [hb] at hlen ⊢ <;> omega

/-- C5 (amended): deleting a personal resume removes both its record and
its backing file (an absent file is tolerated); cascading delete of a job
removes the job's own record, counts exactly the removed files, and —
whenever the number of resumes filed under the job is at most the
configured scan cap — leaves no resume record referencing the job
(beyond the cap, resumes escape the cascade; see the counterexample). -/
theorem claim_c5_delete_consistency :
    (∀ st rid st' flag, (st.resumes.map (fun r => r.id)).Nodup → st.files.Nodup →
        deleteUserResume st rid = .ok (st', flag) →
        (∀ q ∈ st'.resumes, q.id ≠ rid)
        ∧ (∀ p ∈ st.resumes, p.id = rid → ∀ path, p.payload.pdf_path = some path →
            path ≠ "" → path ∉ st'.files))
    ∧ (∀ cfg st jid, (st.resumes.filter (jobFilter jid)).length ≤ cfg.maxScale →
        (∀ q ∈ (deleteJob cfg st jid).1.resumes, q.payload.job_id ≠ some jid)
        ∧ (∀ j ∈ (deleteJob cfg st jid).1.jobDescriptions, j.id ≠ jid)
        ∧ (deleteJob cfg st jid).1.files.length + (deleteJob cfg st jid).2.deleted_resumes
            = st.files.length) := by
  constructor
  · intro st rid st' flag hnid hnf h
    unfold deleteUserResume at h
    revert h
    cases hr : retrieveById ResumePoint.id rid st.resumes with
    | nil => intro h; exact absurd h (by simp)
    | cons p0 rest =>
      intro h
      simp only [Except.ok.injEq, Prod.mk.injEq] at h
      obtain ⟨hst, hflag⟩ := h
      subst hst
      constructor
      · intro q hq
        have hkeep : (q.id != rid) = true := (List.mem_filter.mp hq).2
        simpa using hkeep
      · intro p hp hpid path hpath hpath0
        have hretr : retrieveById ResumePoint.id rid st.resumes = [p] :=
          retrieveById_nodup ResumePoint.id rid st.resumes hnid p hp hpid
        rw [hretr] at hr
        injection hr with hp0 htail
        subst hp0
        show path ∉ (removeStoredFile st.files p.payload.pdf_path).1
        rw [hpath]
        show path ∉ (if path ≠ "" ∧ path ∈ st.files
          then (st.files.erase path, true) else (st.files, false)).1
        by_cases hin : path ≠ "" ∧ path ∈ st.files
        · rw [if_pos hin]
          intro hmem
          exact ((List.Nodup.mem_erase_iff hnf).mp hmem).1 rfl
        · rw [if_neg hin]
          intro hmem
          exact hin ⟨hpath0, hmem⟩
  · intro cfg st jid hlen
    have hscroll : scrollFilter (jobFilter jid) cfg.maxScale st.resumes
        = st.resumes.filter (jobFilter jid) := List.take_of_length_le hlen
    refine ⟨?_, ?_, ?_⟩
    · intro q hq
      refine deleteJobLoop_clears jid (scrollFilter (jobFilter jid) cfg.maxScale st.resumes)
        st.resumes st.files 0 ?_ q hq
      intro r hr hjid
      rw [hscroll]
      refine List.mem_map_of_mem (fun p : ResumePoint => p.id) ?_
      exact List.mem_filter.mpr ⟨hr, by simp [jobFilter, hjid]⟩
    · intro j hj
      have hkeep : (j.id != jid) = true := (List.mem_filter.mp hj).2
      simpa using hkeep
    · exact deleteJobLoop_files _ st.resumes st.files 0

/-- C5 witness: at a store with one resume (id 10, file "a") filed under
job 1, deleting the resume removes its record and file, and cascading
delete of the job clears every resume under it, deletes the job record and
counts the one removed file. -/
theorem claim_c5_witness :
    ((∀ q ∈ stGdel.resumes, q.id ≠ 10)
      ∧ (∀ p ∈ stG.resumes, p.id = 10 → ∀ path, p.payload.pdf_path = some path →
          path ≠ "" → path ∉ stGdel.files))
    ∧ ((∀ q ∈ (deleteJob cfgB stG 1).1.resumes, q.payload.job_id ≠ some 1)
      ∧ (∀ j ∈ (deleteJob cfgB stG 1).1.jobDescriptions, j.id ≠ 1)
      ∧ (deleteJob cfgB stG 1).1.files.length + (deleteJob cfgB stG 1).2.deleted_resumes
          = stG.files.length) :=
  ⟨claim_c5_delete_consistency.1 stG 10 stGdel true (by decide) (by decide) rfl,
   claim_c5_delete_consistency.2 cfgB stG 1 (by decide)⟩

/-- C5 counterexample: with the scan cap configured to 1 and two resumes
filed under job 1, cascading delete processes only the first scanned
resume: afterwards resume 11 still references job 1 although the job's own
record is gone — refuting the claim that no resume record referencing the
job id remains. -/
theorem claim_c5_counterexample :
    (deleteJob cfgA stF 1).1.resumes.map (fun r => r.id) = [11]
    ∧ resumeF1 ∈ (deleteJob cfgA stF 1).1.resumes
    ∧ resumeF1.payload.job_id = some 1
    ∧ (deleteJob cfgA stF 1).1.jobDescriptions = []
    ∧ (deleteJob cfgA stF 1).2.deleted_resumes = 1
    ∧ cfgA.maxScale = 1 := by
  refine ⟨rfl, ?_, rfl, rfl, rfl, rfl⟩
  show resumeF1 ∈ [resumeF1]
  exact List.mem_singleton.mpr rfl

/-- C6: single-resume ingest rejects a non-PDF content type with a 400
validation error, then an empty payload with a 400 validation error, then a
PDF whose aggregate extracted text is empty or whitespace-only with a
distinct 422 unprocessable-content error; in each case the store — vector
collections and files alike — is returned unchanged, so no embedding, file
write or upsert has happened. -/
theorem claim_c6_ingest_rejects :
    ∀ (cfg : Config) (st : Store) (file : UploadedFile) (resumeName now : String),
    (file.contentType ≠ "application/pdf" →
        uploadUserResume cfg st file resumeName now =
          (.error (.validation "Only PDF files are supported"), st))
    ∧ (file.contentType = "application/pdf" → file.bytes = [] →
        uploadUserResume cfg st file resumeName now =
          (.error (.validation "Uploaded file is empty"), st))
    ∧ (file.contentType = "application/pdf" → file.bytes ≠ [] →
        isBlank (pdfToText file.pages) = true →
        uploadUserResume cfg st file resumeName now =
          (.error (.unprocessable "Could not extract any readable text from the PDF"), st)) := by
  intro cfg st file resumeName now
  refine ⟨?_, ?_, ?_⟩
  · intro h
    unfold uploadUserResume
    rw [if_pos h]
  · intro hct hbytes
    unfold uploadUserResume
    rw [if_neg (by simp [hct]), if_pos hbytes]
  · intro hct hbytes hblank
    unfold uploadUserResume
    rw [if_neg (by simp [hct]), if_neg hbytes, if_pos hblank]

/-- C6 witness: the three rejections at concrete uploads — a text file, a
zero-byte PDF, and a PDF whose pages yield only whitespace. -/
theorem claim_c6_witness :
    uploadUserResume cfgB stB fileNonPdf "R" "t" =
      (.error (.validation "Only PDF files are supported"), stB)
    ∧ uploadUserResume cfgB stB fileEmpty "R" "t" =
      (.error (.validation "Uploaded file is empty"), stB)
    ∧ uploadUserResume cfgB stB fileNoText "R" "t" =
      (.error (.unprocessable "Could not extract any readable text from the PDF"), stB) :=
  ⟨(claim_c6_ingest_rejects cfgB stB fileNonPdf "R" "t").1 (by decide),
   (claim_c6_ingest_rejects cfgB stB fileEmpty "R" "t").2.1 rfl rfl,
   (claim_c6_ingest_rejects cfgB stB fileNoText "R" "t").2.2 rfl (by decide) (by decide)⟩

/-- The bulk-upload loop accepts exactly the valid files, reporting their
filenames in input order. -/
theorem processJobFiles_accepted (cfg : Config) (jid : Nat) (now : String) :
    ∀ (files : List UploadedFile) (st : Store),
    (processJobFiles cfg jid now st files).2.map (fun a => a.filename)
      = (files.filter validFile).map (fun f => f.filename) := by
  intro files
  induction files with
  | nil => intro st; rfl
  | cons f rest ih =>
    intro st
    rw [processJobFiles]
    by_cases h1 : f.contentType = "application/pdf"
    · by_cases h2 : f.bytes = []
      · rw [if_neg (by simp [h1]), if_pos h2]
        rw [List.filter_cons, if_neg (by simp [validFile, h2])]
        exact ih st
      · by_cases h3 : isBlank (pdfToText f.pages) = true
        · rw [if_neg (by simp [h1]), if_neg h2, if_pos h3]
          rw [List.filter_cons, if_neg (by simp [validFile, h3])]
          exact ih st
        · rw [if_neg (by simp [h1]), if_neg h2, if_neg h3]
          rw [List.filter_cons, if_pos (by simp [validFile, h1, h2, h3])]
          simp [ih]
    · rw [if_pos h1]
      rw [List.filter_cons, if_neg (by simp [validFile, h1])]
      exact ih st

/-- C7: bulk resume upload never aborts, silently skips every file that is
non-PDF, empty, or yields no extractable text, and reports exactly the
accepted files (their filenames, in order, and their count); in particular,
3 valid PDFs plus 1 empty file plus 1 non-PDF yield exactly 3 accepted
resumes. -/
theorem claim_c7_bulk_upload_skips :
    (∀ (cfg : Config) (st : Store) (jid : Nat) (files : List UploadedFile) (now : String),
        (uploadResumesForJob cfg st jid files now).1.resumes.map (fun a => a.filename)
          = (files.filter validFile).map (fun f => f.filename)
        ∧ (uploadResumesForJob cfg st jid files now).1.uploaded
          = (files.filter validFile).length)
    ∧ (uploadResumesForJob cfgB stB 1 filesH "t").1.uploaded = 3 := by
  constructor
  · intro cfg st jid files now
    refine ⟨processJobFiles_accepted cfg jid now files st, ?_⟩
    show (processJobFiles cfg jid now st files).2.length = _
    have h := congrArg List.length (processJobFiles_accepted cfg jid now files st)
    simpa using h
  · show (processJobFiles cfgB 1 "t" stB filesH).2.length = 3
    have h := congrArg List.length (processJobFiles_accepted cfgB 1 "t" filesH stB)
    simp only [List.length_map] at h
    rw [h]
    decide

/-- C9: the claim matches the spec's intent, but the code contradicts its
own comments ("Verify job exists", and the 404 branches at
src/backend/main.py lines 280-281 and 827-828 are written to fire).  The
vector store's `retrieve` returns an empty list for a missing id (as the
source's own emptiness checks at lines 349 and 652 assume) and its delete
is idempotent, so neither except branch can fire: uploading resumes under a
nonexistent job id succeeds and files a resume under the phantom job, and
deleting a nonexistent saved job description reports success — neither
yields the claimed not-found error. -/
theorem claim_c9_notfound_bug :
    (retrieveById JobPoint.id 999 stB.jobDescriptions = []
      ∧ (uploadResumesForJob cfgB stB 999 [fileGood] "t").1
          = { uploaded := 1, resumes := [{ resume_id := 100, filename := "good.pdf" }] })
    ∧ (retrieveById SavedJobPoint.id 999 stB.userJobDescriptions = []
      ∧ deleteUserJobDescription stB 999 =
          .ok (stB, "Job description deleted successfully")) := by
  refine ⟨⟨rfl, rfl⟩, ⟨rfl, rfl⟩⟩

/-- C10: `match_resume_to_jobs` silently omits every input entry with a
missing or empty description — the returned list has exactly one match per
entry with a non-empty description (a permutation of their descriptions,
since the output is re-sorted by score) — and the request still succeeds
whenever the resume exists. -/
theorem claim_c10_empty_desc_skipped :
    (∀ cfg st rid jobs res calls,
        matchResumeToJobs cfg st rid jobs = .ok (res, calls) →
        res.length = (jobs.filter (fun j => j.description.getD "" != "")).length
        ∧ (res.map (fun m => m.description)).Perm
            ((jobs.filter (fun j => j.description.getD "" != "")).map
              (fun j => j.description.getD "")))
    ∧ (∀ cfg st rid jobs rp rest, retrieveById ResumePoint.id rid st.resumes = rp :: rest →
        ∃ res calls, matchResumeToJobs cfg st rid jobs = .ok (res, calls)) := by
  constructor
  · intro cfg st rid jobs res calls h
    obtain ⟨rp, rest, hj, hres, hcalls⟩ := matchResumeToJobs_ok cfg st rid jobs res calls h
    subst hres
    constructor
    · rw [rankAndTrim_length, (List.perm_insertionSort jmDesc _).length_eq]
      have hlen := congrArg List.length (buildJobMatches_map_description cfg rp.vector
        (rp.payload.full_text.getD rp.payload.text_preview) jobs)
      simpa using hlen
    · have hperm := (List.perm_insertionSort jmDesc
        (buildJobMatches cfg rp.vector
          (rp.payload.full_text.getD rp.payload.text_preview) jobs).1).map
          (fun m => m.description)
      rw [rankAndTrim_map_description,
        ← buildJobMatches_map_description cfg rp.vector
          (rp.payload.full_text.getD rp.payload.text_preview) jobs]
      exact hperm
  · intro cfg st rid jobs rp rest h
    have hok : matchResumeToJobs cfg st rid jobs =
        .ok (rankAndTrim 1 (List.insertionSort jmDesc
            (buildJobMatches cfg rp.vector
              (rp.payload.full_text.getD rp.payload.text_preview) jobs).1),
          (buildJobMatches cfg rp.vector
            (rp.payload.full_text.getD rp.payload.text_preview) jobs).2) := by
      unfold matchResumeToJobs
      rw [h]
    exact ⟨_, _, hok⟩

/-- C10 witness: at the scenario-B matching — one non-empty, one missing
and one empty description — exactly one match is returned, and the call
succeeds for the existing resume. -/
theorem claim_c10_witness :
    (matchBres.length = (jobsC'.filter (fun j => j.description.getD "" != "")).length
      ∧ (matchBres.map (fun m => m.description)).Perm
          ((jobsC'.filter (fun j => j.description.getD "" != "")).map
            (fun j => j.description.getD "")))
    ∧ (∃ res calls, matchResumeToJobs cfgB stB 20 jobsC' = .ok (res, calls)) :=
  ⟨claim_c10_empty_desc_skipped.1 cfgB stB 20 jobsC' matchBres matchBcalls evalB_match,
   claim_c10_empty_desc_skipped.2 cfgB stB 20 jobsC' userResumeB [] rfl⟩

/-- C8 (amended): `rank_resumes_for_job` considers at most the configured
scan cap (`MAX_SCALE`, default 200) of candidates, silently omitting the
rest without error.  The other two matching operations do not use the
configured cap: `match_resume_to_saved_jobs` scans at most a hardcoded 100
saved job descriptions, and `match_resume_to_jobs` considers every supplied
job description with no cap at all (see the counterexample). -/
theorem claim_c8_scan_cap :
    (∀ cfg useNative st jid now res calls st',
        rankResumesForJob cfg useNative st jid now = .ok (res, calls, st') →
        res.length ≤ cfg.maxScale)
    ∧ (∀ cfg st rid now res calls st',
        matchResumeToSavedJobs cfg st rid now = .ok (res, calls, st') →
        res.length ≤ 100)
    ∧ (∀ cfg st rid jobs res calls,
        matchResumeToJobs cfg st rid jobs = .ok (res, calls) →
        res.length ≤ jobs.length) := by
  refine ⟨?_, ?_, ?_⟩
  · intro cfg useNative st jid now res calls st' h
    obtain ⟨jobPoint, rest, hj, sr, hsorted, hlen, hres, hcalls⟩ :=
      rankResumesForJob_ok cfg useNative st jid now res calls st' h
    subst hres
    rw [buildRanked_length]
    exact hlen
  · intro cfg st rid now res calls st' h
    obtain ⟨rp, rest, hj, hcase⟩ := matchResumeToSavedJobs_ok cfg st rid now res calls st' h
    rcases hcase with ⟨hs, hres, hcalls⟩ | ⟨sp, scrolled, hs, hres, hcalls⟩
    · subst hres
      simp
    · subst hres
      rw [rankAndTrim_length, (List.perm_insertionSort jmDesc _).length_eq,
        buildSavedMatches_length]
      have : (sp :: scrolled).length ≤ 100 := by
        rw [← hs]
        exact List.length_take_le _ _
      exact this
  · intro cfg st rid jobs res calls h
    obtain ⟨rp, rest, hj, hres, hcalls⟩ := matchResumeToJobs_ok cfg st rid jobs res calls h
    subst hres
    rw [rankAndTrim_length, (List.perm_insertionSort jmDesc _).length_eq]
    have hlen := congrArg List.length (buildJobMatches_map_description cfg rp.vector
      (rp.payload.full_text.getD rp.payload.text_preview) jobs)
    simp only [List.length_map] at hlen
    rw [hlen]
    exact List.length_filter_le _ _

/-- C8 witness: the amended bounds instantiated at the scenario-B
evaluations of the three operations. -/
theorem claim_c8_witness :
    rankedBres.length ≤ cfgB.maxScale
    ∧ savedBres.length ≤ 100
    ∧ matchBres.length ≤ jobsC'.length :=
  ⟨claim_c8_scan_cap.1 cfgB true stB 1 "t1" rankedBres callsBrank stBrank evalB_rank,
   claim_c8_scan_cap.2.1 cfgB stB 20 "t2" savedBres savedBcalls stBsaved evalB_saved,
   claim_c8_scan_cap.2.2 cfgB stB 20 jobsC' matchBres matchBcalls evalB_match⟩

/-- C8 counterexample: with the scan cap configured to 1,
`match_resume_to_saved_jobs` still returns 2 matches for a library of two
saved job descriptions — its scroll limit is the hardcoded 100, not the
configured maximum scan size — refuting the claim that the configured
bound applies to each ranking operation. -/
theorem claim_c8_counterexample :
    savedLen (matchResumeToSavedJobs cfgA stI 20 "t") = some 2 ∧ cfgA.maxScale = 1 := by
  refine ⟨?_, rfl⟩
  have hret : retrieveById ResumePoint.id 20 stI.resumes = [userResumeB] := rfl
  have hscroll : scrollFilter savedFilter 100 stI.userJobDescriptions
      = [savedI0, savedI1] := rfl
  simp only [matchResumeToSavedJobs, hret, hscroll, savedLen]
  rw [rankAndTrim_length, (List.perm_insertionSort jmDesc _).length_eq,
    buildSavedMatches_length]
  rfl

end

end ResumeAnalyzer
